import Mathlib

/-!
# CodeVisor graph viewer: filter derivation and layout synchronisation

A shallow embedding of the state logic of

* `src/problem-version/src/renderer/components/graph/GraphViewer.jsx`
  (the memoised derivations `filteredNodes` / `filteredEdges` /
  `styledNodes` / `styledEdges`, the `initialNodes` / `initialEdges` /
  auto-fit effects, the fallback `handleLayoutChange`, the handlers
  `handleNodeClick`, `handleSelectionChange` and `onNodeDragStop`),
* `src/problem-version/src/renderer/pages/main-page.jsx`
  (`sampleGraphData`, `applyDagreToSample`, `handleLayoutChange`,
  `analyzeProject`, `handleNodeClick`, `handleNodeSelect`), and
* `src/working-version/react-flow-analysis/src/App.jsx`
  (`forceRepositionNodes`).

Conventions of the embedding:

* a JavaScript array is a `List`, a `Set` of ids is a `List String` queried
  by membership, a property that may be `undefined` is an `Option`;
* numbers are `Int` (complexities, coordinates), opacities are rationals;
  the React key is a `Nat`;
* JavaScript truthiness is written out at each use (`x || d`, `if (x)`);
* an `await` splits a handler into the part that runs before the call is
  issued and the part that runs when the promise settles; the settled
  promise is an `Outcome`;
* the visualisation widget (`@xyflow/react`) is library code: what the
  viewer needs of it (a new `useReactFlow` object after the widget was
  unmounted or mounted, the `onSelectionChange` call after a click) is
  stated in the three definitions marked as modelled.
-/

namespace CodeVisor

/-! ## Data model -/

/-- Canvas coordinates of a node (`node.position`). -/
structure Position where
  x : Int
  y : Int
  deriving DecidableEq, Repr

/-- The `metadata` object of a node; only `complexity` is read by the viewer. -/
structure Metadata where
  complexity : Option Int := none
  deriving DecidableEq, Repr

/-- The `data` object of a React Flow node as produced by the layout engine
and by `sampleGraphData`. -/
structure NodeData where
  label : String
  filePath : Option String := none
  nodeType : String
  exports : List String := []
  imports : List String := []
  components : List String := []
  functions : List String := []
  metadata : Option Metadata := none
  deriving DecidableEq, Repr

/-- A React Flow node. -/
structure Node where
  id : String
  type : String := "custom"
  position : Position
  data : NodeData
  draggable : Bool := true
  deriving DecidableEq, Repr

/-- The `data` object of an edge. -/
structure EdgeData where
  edgeType : Option String := none
  imports : Option (List String) := none
  deriving DecidableEq, Repr

/-- The part of an edge's `style` object that the viewer reads. -/
structure EdgeStyle where
  strokeWidth : Option Nat := none
  deriving DecidableEq, Repr

/-- A React Flow edge. -/
structure Edge where
  id : String
  source : String
  target : String
  type : String := "smoothstep"
  data : Option EdgeData := none
  style : Option EdgeStyle := none
  deriving DecidableEq, Repr

/-- A graph snapshot: the `graphData` object of the main page. -/
structure GraphData where
  nodes : List Node
  edges : List Edge
  deriving DecidableEq, Repr

/-- The `filterOptions` object (an object, not `null`).  `otherKeys` lists the own keys of the object
that the filter never reads with a defined value (any key besides the four
below, or one of the four holding `undefined`). -/
structure FilterOptions where
  nodeTypes : Option (List String) := none
  searchTerm : Option String := none
  minComplexity : Option Int := none
  maxComplexity : Option Int := none
  otherKeys : List String := []
  deriving DecidableEq, Repr

/-! ## The external engine: requests, responses, settled promises -/

/-- A node in the shape the layout engine takes as input. -/
structure EngineNode where
  id : String
  name : String
  filePath : Option String
  type : String
  exports : List String
  imports : List String
  components : List String
  functions : List String
  metadata : Option Metadata
  deriving DecidableEq, Repr

/-- An edge in the shape the layout engine takes as input. -/
structure EngineEdge where
  id : String
  source : String
  target : String
  type : String
  imports : Option (List String) := none
  deriving DecidableEq, Repr

/-- The `dependencyGraph` object exchanged with the engine. -/
structure DependencyGraph where
  nodes : Option (List EngineNode)
  edges : Option (List EngineEdge)
  deriving DecidableEq, Repr

/-- The answer of `electronAPI.graph.generateLayout`. -/
structure LayoutResult where
  success : Bool
  nodes : Option (List Node) := none
  edges : Option (List Edge) := none
  error : Option String := none
  deriving DecidableEq, Repr

/-- The answer of `electronAPI.project.analyzeProject`. -/
structure ProjectResult where
  success : Bool
  dependencyGraph : Option DependencyGraph := none
  error : Option String := none
  deriving DecidableEq, Repr

/-- A settled promise: resolved with a value, or rejected (the `await`
throws an error carrying `message`). -/
inductive Outcome (α : Type) where
  | resolved (value : α)
  | rejected (message : String)
  deriving DecidableEq, Repr

/-- A call issued to the engine. -/
inductive EngineCall where
  | analyzeProject (folderPath : String)
  | generateLayout (dependencyGraph : DependencyGraph) (layoutType : String)
  deriving DecidableEq, Repr

/-- The object `window.electronAPI`, as the two calls the graph state uses. -/
structure ElectronAPI where
  analyzeProject : String → Outcome ProjectResult
  generateLayout : DependencyGraph → String → Outcome LayoutResult

/-- The value of `message || fallback` for an optional string. -/
def orDefault (message : Option String) (fallback : String) : String :=
  match message with
  | none => fallback
  | some m => if m = "" then fallback else m

/-! ## Component state -/

/-- An entry of the main page's `selectedNodes` array: `handleNodeClick`
stores ids, `handleNodeSelect` stores nodes. -/
inductive SelectionEntry where
  | id (nodeId : String)
  | node (node : Node)
  deriving DecidableEq, Repr

/-- The graph-related `useState` cells of `MainPage` (lines 222-231).
`graphDataRef` stands for the identity of the `graphData` object: every
`setGraphData` call of the page installs a freshly built object. -/
structure MainState where
  projectPath : Option String := none
  graphData : GraphData
  graphDataRef : Nat := 0
  selectedNode : Option Node := none
  selectedNodes : List SelectionEntry := []
  isLoading : Bool := false
  loadingStep : String := ""
  showDetailPanel : Bool := false
  filterOptions : FilterOptions := {}
  currentLayout : String := "dagre"
  deriving DecidableEq, Repr

/-- The state cells of `GraphViewerInner` (lines 41-44 and 162).
`pendingRemounts` counts the timers scheduled at line 108 that have not
fired yet.  `reactFlowInstance` stands for the identity of the object that
`useReactFlow()` returns at line 47: the effects that list it among their
dependencies run again when it is another object. -/
structure ViewerState where
  nodes : List Node
  edges : List Edge
  selectedNodes : List String := []
  isInitialized : Bool := false
  reactFlowKey : Nat := 0
  pendingRemounts : Nat := 0
  reactFlowInstance : Nat := 0
  deriving DecidableEq, Repr

/-- The main page together with the viewer it renders. -/
structure App where
  page : MainState
  viewer : ViewerState
  deriving DecidableEq, Repr

/-! ## JavaScript built-ins used by the filter -/

/-- The simple lowercase mappings of the Unicode Character Database (version
14.0), as rows `(first, last, step, shift)`: a code point `c` with
`first ≤ c ≤ last` and `c - first` a multiple of `step` is mapped to
`c + shift`. -/
def lowercaseRows : List (Nat × Nat × Nat × Int) :=
  [
    (65, 90, 1, 32), (192, 214, 1, 32), (216, 222, 1, 32),
    (256, 302, 2, 1), (306, 310, 2, 1), (313, 327, 2, 1),
    (330, 374, 2, 1), (376, 376, 1, -121), (377, 381, 2, 1),
    (385, 385, 1, 210), (386, 388, 2, 1), (390, 390, 1, 206),
    (391, 391, 1, 1), (393, 394, 1, 205), (395, 395, 1, 1),
    (398, 398, 1, 79), (399, 399, 1, 202), (400, 400, 1, 203),
    (401, 401, 1, 1), (403, 403, 1, 205), (404, 404, 1, 207),
    (406, 406, 1, 211), (407, 407, 1, 209), (408, 408, 1, 1),
    (412, 412, 1, 211), (413, 413, 1, 213), (415, 415, 1, 214),
    (416, 420, 2, 1), (422, 422, 1, 218), (423, 423, 1, 1),
    (425, 425, 1, 218), (428, 428, 1, 1), (430, 430, 1, 218),
    (431, 431, 1, 1), (433, 434, 1, 217), (435, 437, 2, 1),
    (439, 439, 1, 219), (440, 440, 1, 1), (444, 444, 1, 1),
    (452, 452, 1, 2), (453, 453, 1, 1), (455, 455, 1, 2),
    (456, 456, 1, 1), (458, 458, 1, 2), (459, 475, 2, 1),
    (478, 494, 2, 1), (497, 497, 1, 2), (498, 500, 2, 1),
    (502, 502, 1, -97), (503, 503, 1, -56), (504, 542, 2, 1),
    (544, 544, 1, -130), (546, 562, 2, 1), (570, 570, 1, 10795),
    (571, 571, 1, 1), (573, 573, 1, -163), (574, 574, 1, 10792),
    (577, 577, 1, 1), (579, 579, 1, -195), (580, 580, 1, 69),
    (581, 581, 1, 71), (582, 590, 2, 1), (880, 882, 2, 1),
    (886, 886, 1, 1), (895, 895, 1, 116), (902, 902, 1, 38),
    (904, 906, 1, 37), (908, 908, 1, 64), (910, 911, 1, 63),
    (913, 929, 1, 32), (931, 939, 1, 32), (975, 975, 1, 8),
    (984, 1006, 2, 1), (1012, 1012, 1, -60), (1015, 1015, 1, 1),
    (1017, 1017, 1, -7), (1018, 1018, 1, 1), (1021, 1023, 1, -130),
    (1024, 1039, 1, 80), (1040, 1071, 1, 32), (1120, 1152, 2, 1),
    (1162, 1214, 2, 1), (1216, 1216, 1, 15), (1217, 1229, 2, 1),
    (1232, 1326, 2, 1), (1329, 1366, 1, 48), (4256, 4293, 1, 7264),
    (4295, 4295, 1, 7264), (4301, 4301, 1, 7264), (5024, 5103, 1, 38864),
    (5104, 5109, 1, 8), (7312, 7354, 1, -3008), (7357, 7359, 1, -3008),
    (7680, 7828, 2, 1), (7838, 7838, 1, -7615), (7840, 7934, 2, 1),
    (7944, 7951, 1, -8), (7960, 7965, 1, -8), (7976, 7983, 1, -8),
    (7992, 7999, 1, -8), (8008, 8013, 1, -8), (8025, 8031, 2, -8),
    (8040, 8047, 1, -8), (8072, 8079, 1, -8), (8088, 8095, 1, -8),
    (8104, 8111, 1, -8), (8120, 8121, 1, -8), (8122, 8123, 1, -74),
    (8124, 8124, 1, -9), (8136, 8139, 1, -86), (8140, 8140, 1, -9),
    (8152, 8153, 1, -8), (8154, 8155, 1, -100), (8168, 8169, 1, -8),
    (8170, 8171, 1, -112), (8172, 8172, 1, -7), (8184, 8185, 1, -128),
    (8186, 8187, 1, -126), (8188, 8188, 1, -9), (8486, 8486, 1, -7517),
    (8490, 8490, 1, -8383), (8491, 8491, 1, -8262), (8498, 8498, 1, 28),
    (8544, 8559, 1, 16), (8579, 8579, 1, 1), (9398, 9423, 1, 26),
    (11264, 11311, 1, 48), (11360, 11360, 1, 1), (11362, 11362, 1, -10743),
    (11363, 11363, 1, -3814), (11364, 11364, 1, -10727), (11367, 11371, 2, 1),
    (11373, 11373, 1, -10780), (11374, 11374, 1, -10749), (11375, 11375, 1, -10783),
    (11376, 11376, 1, -10782), (11378, 11378, 1, 1), (11381, 11381, 1, 1),
    (11390, 11391, 1, -10815), (11392, 11490, 2, 1), (11499, 11501, 2, 1),
    (11506, 11506, 1, 1), (42560, 42604, 2, 1), (42624, 42650, 2, 1),
    (42786, 42798, 2, 1), (42802, 42862, 2, 1), (42873, 42875, 2, 1),
    (42877, 42877, 1, -35332), (42878, 42886, 2, 1), (42891, 42891, 1, 1),
    (42893, 42893, 1, -42280), (42896, 42898, 2, 1), (42902, 42920, 2, 1),
    (42922, 42922, 1, -42308), (42923, 42923, 1, -42319), (42924, 42924, 1, -42315),
    (42925, 42925, 1, -42305), (42926, 42926, 1, -42308), (42928, 42928, 1, -42258),
    (42929, 42929, 1, -42282), (42930, 42930, 1, -42261), (42931, 42931, 1, 928),
    (42932, 42946, 2, 1), (42948, 42948, 1, -48), (42949, 42949, 1, -42307),
    (42950, 42950, 1, -35384), (42951, 42953, 2, 1), (42960, 42960, 1, 1),
    (42966, 42968, 2, 1), (42997, 42997, 1, 1), (65313, 65338, 1, 32),
    (66560, 66599, 1, 40), (66736, 66771, 1, 40), (66928, 66964, 2, 39),
    (66929, 66938, 1, 39), (66941, 66954, 1, 39), (66957, 66962, 1, 39),
    (66965, 66965, 1, 39), (68736, 68786, 1, 64), (71840, 71871, 1, 32),
    (93760, 93791, 1, 32), (125184, 125217, 1, 34) ]

/-- The code points that are cased and not case-ignorable, as closed ranges. -/
def casedRanges : List (Nat × Nat) :=
  [
    (65, 90), (97, 122), (170, 170), (181, 181), (186, 186),
    (192, 214), (216, 246), (248, 442), (444, 447), (452, 659),
    (661, 687), (880, 883), (886, 887), (891, 893), (895, 895),
    (902, 902), (904, 906), (908, 908), (910, 929), (931, 1013),
    (1015, 1153), (1162, 1327), (1329, 1366), (1376, 1416), (4256, 4293),
    (4295, 4295), (4301, 4301), (4304, 4346), (4349, 4351), (5024, 5109),
    (5112, 5117), (7296, 7304), (7312, 7354), (7357, 7359), (7424, 7467),
    (7531, 7543), (7545, 7578), (7680, 7957), (7960, 7965), (7968, 8005),
    (8008, 8013), (8016, 8023), (8025, 8025), (8027, 8027), (8029, 8029),
    (8031, 8061), (8064, 8116), (8118, 8124), (8126, 8126), (8130, 8132),
    (8134, 8140), (8144, 8147), (8150, 8155), (8160, 8172), (8178, 8180),
    (8182, 8188), (8450, 8450), (8455, 8455), (8458, 8467), (8469, 8469),
    (8473, 8477), (8484, 8484), (8486, 8486), (8488, 8488), (8490, 8493),
    (8495, 8500), (8505, 8505), (8508, 8511), (8517, 8521), (8526, 8526),
    (8544, 8575), (8579, 8580), (9398, 9449), (11264, 11387), (11390, 11492),
    (11499, 11502), (11506, 11507), (11520, 11557), (11559, 11559), (11565, 11565),
    (42560, 42605), (42624, 42651), (42786, 42863), (42865, 42887), (42891, 42894),
    (42896, 42954), (42960, 42961), (42963, 42963), (42965, 42969), (42997, 42998),
    (43002, 43002), (43824, 43866), (43872, 43880), (43888, 43967), (64256, 64262),
    (64275, 64279), (65313, 65338), (65345, 65370), (66560, 66639), (66736, 66771),
    (66776, 66811), (66928, 66938), (66940, 66954), (66956, 66962), (66964, 66965),
    (66967, 66977), (66979, 66993), (66995, 67001), (67003, 67004), (68736, 68786),
    (68800, 68850), (71840, 71903), (93760, 93823), (119808, 119892), (119894, 119964),
    (119966, 119967), (119970, 119970), (119973, 119974), (119977, 119980), (119982, 119993),
    (119995, 119995), (119997, 120003), (120005, 120069), (120071, 120074), (120077, 120084),
    (120086, 120092), (120094, 120121), (120123, 120126), (120128, 120132), (120134, 120134),
    (120138, 120144), (120146, 120485), (120488, 120512), (120514, 120538), (120540, 120570),
    (120572, 120596), (120598, 120628), (120630, 120654), (120656, 120686), (120688, 120712),
    (120714, 120744), (120746, 120770), (120772, 120779), (122624, 122633), (122635, 122654),
    (125184, 125251), (127280, 127305), (127312, 127337), (127344, 127369) ]

/-- The case-ignorable code points, as closed ranges. -/
def caseIgnorableRanges : List (Nat × Nat) :=
  [
    (39, 39), (46, 46), (58, 58), (94, 94), (96, 96),
    (168, 168), (173, 173), (175, 175), (180, 180), (183, 184),
    (688, 879), (884, 885), (890, 890), (900, 901), (903, 903),
    (1155, 1161), (1369, 1369), (1375, 1375), (1425, 1469), (1471, 1471),
    (1473, 1474), (1476, 1477), (1479, 1479), (1524, 1524), (1536, 1541),
    (1552, 1562), (1564, 1564), (1600, 1600), (1611, 1631), (1648, 1648),
    (1750, 1757), (1759, 1768), (1770, 1773), (1807, 1807), (1809, 1809),
    (1840, 1866), (1958, 1968), (2027, 2037), (2042, 2042), (2045, 2045),
    (2070, 2093), (2137, 2139), (2184, 2184), (2192, 2193), (2200, 2207),
    (2249, 2306), (2362, 2362), (2364, 2364), (2369, 2376), (2381, 2381),
    (2385, 2391), (2402, 2403), (2417, 2417), (2433, 2433), (2492, 2492),
    (2497, 2500), (2509, 2509), (2530, 2531), (2558, 2558), (2561, 2562),
    (2620, 2620), (2625, 2626), (2631, 2632), (2635, 2637), (2641, 2641),
    (2672, 2673), (2677, 2677), (2689, 2690), (2748, 2748), (2753, 2757),
    (2759, 2760), (2765, 2765), (2786, 2787), (2810, 2815), (2817, 2817),
    (2876, 2876), (2879, 2879), (2881, 2884), (2893, 2893), (2901, 2902),
    (2914, 2915), (2946, 2946), (3008, 3008), (3021, 3021), (3072, 3072),
    (3076, 3076), (3132, 3132), (3134, 3136), (3142, 3144), (3146, 3149),
    (3157, 3158), (3170, 3171), (3201, 3201), (3260, 3260), (3263, 3263),
    (3270, 3270), (3276, 3277), (3298, 3299), (3328, 3329), (3387, 3388),
    (3393, 3396), (3405, 3405), (3426, 3427), (3457, 3457), (3530, 3530),
    (3538, 3540), (3542, 3542), (3633, 3633), (3636, 3642), (3654, 3662),
    (3761, 3761), (3764, 3772), (3782, 3782), (3784, 3789), (3864, 3865),
    (3893, 3893), (3895, 3895), (3897, 3897), (3953, 3966), (3968, 3972),
    (3974, 3975), (3981, 3991), (3993, 4028), (4038, 4038), (4141, 4144),
    (4146, 4151), (4153, 4154), (4157, 4158), (4184, 4185), (4190, 4192),
    (4209, 4212), (4226, 4226), (4229, 4230), (4237, 4237), (4253, 4253),
    (4348, 4348), (4957, 4959), (5906, 5908), (5938, 5939), (5970, 5971),
    (6002, 6003), (6068, 6069), (6071, 6077), (6086, 6086), (6089, 6099),
    (6103, 6103), (6109, 6109), (6155, 6159), (6211, 6211), (6277, 6278),
    (6313, 6313), (6432, 6434), (6439, 6440), (6450, 6450), (6457, 6459),
    (6679, 6680), (6683, 6683), (6742, 6742), (6744, 6750), (6752, 6752),
    (6754, 6754), (6757, 6764), (6771, 6780), (6783, 6783), (6823, 6823),
    (6832, 6862), (6912, 6915), (6964, 6964), (6966, 6970), (6972, 6972),
    (6978, 6978), (7019, 7027), (7040, 7041), (7074, 7077), (7080, 7081),
    (7083, 7085), (7142, 7142), (7144, 7145), (7149, 7149), (7151, 7153),
    (7212, 7219), (7222, 7223), (7288, 7293), (7376, 7378), (7380, 7392),
    (7394, 7400), (7405, 7405), (7412, 7412), (7416, 7417), (7468, 7530),
    (7544, 7544), (7579, 7679), (8125, 8125), (8127, 8129), (8141, 8143),
    (8157, 8159), (8173, 8175), (8189, 8190), (8203, 8207), (8216, 8217),
    (8228, 8228), (8231, 8231), (8234, 8238), (8288, 8292), (8294, 8303),
    (8305, 8305), (8319, 8319), (8336, 8348), (8400, 8432), (11388, 11389),
    (11503, 11505), (11631, 11631), (11647, 11647), (11744, 11775), (11823, 11823),
    (12293, 12293), (12330, 12333), (12337, 12341), (12347, 12347), (12441, 12446),
    (12540, 12542), (40981, 40981), (42232, 42237), (42508, 42508), (42607, 42610),
    (42612, 42621), (42623, 42623), (42652, 42655), (42736, 42737), (42752, 42785),
    (42864, 42864), (42888, 42890), (42994, 42996), (43000, 43001), (43010, 43010),
    (43014, 43014), (43019, 43019), (43045, 43046), (43052, 43052), (43204, 43205),
    (43232, 43249), (43263, 43263), (43302, 43309), (43335, 43345), (43392, 43394),
    (43443, 43443), (43446, 43449), (43452, 43453), (43471, 43471), (43493, 43494),
    (43561, 43566), (43569, 43570), (43573, 43574), (43587, 43587), (43596, 43596),
    (43632, 43632), (43644, 43644), (43696, 43696), (43698, 43700), (43703, 43704),
    (43710, 43711), (43713, 43713), (43741, 43741), (43756, 43757), (43763, 43764),
    (43766, 43766), (43867, 43871), (43881, 43883), (44005, 44005), (44008, 44008),
    (44013, 44013), (64286, 64286), (64434, 64450), (65024, 65039), (65043, 65043),
    (65056, 65071), (65106, 65106), (65109, 65109), (65279, 65279), (65287, 65287),
    (65294, 65294), (65306, 65306), (65342, 65342), (65344, 65344), (65392, 65392),
    (65438, 65439), (65507, 65507), (65529, 65531), (66045, 66045), (66272, 66272),
    (66422, 66426), (67456, 67461), (67463, 67504), (67506, 67514), (68097, 68099),
    (68101, 68102), (68108, 68111), (68152, 68154), (68159, 68159), (68325, 68326),
    (68900, 68903), (69291, 69292), (69446, 69456), (69506, 69509), (69633, 69633),
    (69688, 69702), (69744, 69744), (69747, 69748), (69759, 69761), (69811, 69814),
    (69817, 69818), (69821, 69821), (69826, 69826), (69837, 69837), (69888, 69890),
    (69927, 69931), (69933, 69940), (70003, 70003), (70016, 70017), (70070, 70078),
    (70089, 70092), (70095, 70095), (70191, 70193), (70196, 70196), (70198, 70199),
    (70206, 70206), (70367, 70367), (70371, 70378), (70400, 70401), (70459, 70460),
    (70464, 70464), (70502, 70508), (70512, 70516), (70712, 70719), (70722, 70724),
    (70726, 70726), (70750, 70750), (70835, 70840), (70842, 70842), (70847, 70848),
    (70850, 70851), (71090, 71093), (71100, 71101), (71103, 71104), (71132, 71133),
    (71219, 71226), (71229, 71229), (71231, 71232), (71339, 71339), (71341, 71341),
    (71344, 71349), (71351, 71351), (71453, 71455), (71458, 71461), (71463, 71467),
    (71727, 71735), (71737, 71738), (71995, 71996), (71998, 71998), (72003, 72003),
    (72148, 72151), (72154, 72155), (72160, 72160), (72193, 72202), (72243, 72248),
    (72251, 72254), (72263, 72263), (72273, 72278), (72281, 72283), (72330, 72342),
    (72344, 72345), (72752, 72758), (72760, 72765), (72767, 72767), (72850, 72871),
    (72874, 72880), (72882, 72883), (72885, 72886), (73009, 73014), (73018, 73018),
    (73020, 73021), (73023, 73029), (73031, 73031), (73104, 73105), (73109, 73109),
    (73111, 73111), (73459, 73460), (78896, 78904), (92912, 92916), (92976, 92982),
    (92992, 92995), (94031, 94031), (94095, 94111), (94176, 94177), (94179, 94180),
    (110576, 110579), (110581, 110587), (110589, 110590), (113821, 113822), (113824, 113827),
    (118528, 118573), (118576, 118598), (119143, 119145), (119155, 119170), (119173, 119179),
    (119210, 119213), (119362, 119364), (121344, 121398), (121403, 121452), (121461, 121461),
    (121476, 121476), (121499, 121503), (121505, 121519), (122880, 122886), (122888, 122904),
    (122907, 122913), (122915, 122916), (122918, 122922), (123184, 123197), (123566, 123566),
    (123628, 123631), (125136, 125142), (125252, 125259), (127995, 127999), (917505, 917505),
    (917536, 917631), (917760, 917999) ]

/-- Membership of a code point in a list of closed ranges. -/
def inRanges (ranges : List (Nat × Nat)) (c : Nat) : Bool :=
  ranges.any (fun r => Nat.ble r.1 c && Nat.ble c r.2)

/-- The lowercase mapping of one code point: the first row that applies.
Below 128 the only row is the one of the letters `A` to `Z`. -/
def lowerCodePoint (c : Nat) : Nat :=
  if c < 128 then
    (if Nat.ble 65 c && Nat.ble c 90 then c + 32 else c)
  else
    match lowercaseRows.find? (fun row =>
        Nat.ble row.1 c && Nat.ble c row.2.1 && ((c - row.1) % row.2.2.1 == 0)) with
    | some row => (Int.ofNat c + row.2.2.2).toNat
    | none => c

/-- The lowercase mapping of one character. -/
def lowerChar (c : Char) : Char :=
  Char.ofNat (lowerCodePoint c.toNat)

/-- The first character of `chars` that is not case-ignorable is cased. -/
def nextIsCased : List Char → Bool
  | [] => false
  | c :: rest =>
    if inRanges caseIgnorableRanges c.toNat then nextIsCased rest
    else inRanges casedRanges c.toNat

/-- The walk of `toLowerCase` over the characters: `before` holds the
characters already passed, nearest first.  A capital sigma becomes the final
sigma when a cased letter precedes it and none follows it (case-ignorable
characters skipped on both sides); a capital I with dot above becomes `i`
followed by the combining dot above. -/
def lowerChars : List Char → List Char → List Char
  | _, [] => []
  | before, c :: rest =>
    (if c.toNat = 0x3A3 then
        (if nextIsCased before && !nextIsCased rest then [Char.ofNat 0x3C2]
         else [Char.ofNat 0x3C3])
      else if c.toNat = 0x130 then [Char.ofNat 0x69, Char.ofNat 0x307]
      else [lowerChar c])
      ++ lowerChars (c :: before) rest

/-- `String.prototype.toLowerCase`: the Unicode default case conversion,
with the case mappings of Unicode 14.0. -/
def toLowerCase (s : String) : String :=
  String.mk (lowerChars [] s.data)

/-- `String.prototype.includes`: `needle` occurs in `hay` as a contiguous
run of characters. -/
def includes (hay needle : String) : Bool :=
  hay.data.tails.any (fun t => needle.data.isPrefixOf t)

/-- `Object.keys(filterOptions)`; only its length is used. -/
def FilterOptions.keys (filterOptions : FilterOptions) : List String :=
  (if filterOptions.nodeTypes.isSome then ["nodeTypes"] else [])
    ++ (if filterOptions.searchTerm.isSome then ["searchTerm"] else [])
    ++ (if filterOptions.minComplexity.isSome then ["minComplexity"] else [])
    ++ (if filterOptions.maxComplexity.isSome then ["maxComplexity"] else [])
    ++ filterOptions.otherKeys

namespace GraphViewer

/-! ## GraphViewer.jsx: filter derivation (lines 187-234) -/

/-- The value of `node.data.metadata?.complexity || 0` (line 213). -/
def complexity (node : Node) : Int :=
  match node.data.metadata with
  | none => 0
  | some metadata =>
    match metadata.complexity with
    | none => 0
    | some c => if c = 0 then 0 else c

/-- The callback handed to `nodes.filter` (lines 192-225): three guarded
blocks, each able to reject the node, and `return true` at the end. -/
def nodeFilter (filterOptions : FilterOptions) (node : Node) : Bool :=
  -- node type filter (lines 194-198)
  if (match filterOptions.nodeTypes with
      | some nodeTypes =>
        decide (nodeTypes.length > 0) && !(nodeTypes.contains node.data.nodeType)
      | none => false) then false
  -- search term filter (lines 201-209)
  else if (match filterOptions.searchTerm with
      | some term =>
        decide (term ≠ "") &&
          (let searchTerm := toLowerCase term
           let nodeName := toLowerCase node.data.label
           let filePath :=
             match node.data.filePath with
             | some p => toLowerCase p
             | none => ""
           !(includes nodeName searchTerm) && !(includes filePath searchTerm))
      | none => false) then false
  -- complexity filter (lines 212-222)
  else if filterOptions.minComplexity.isSome || filterOptions.maxComplexity.isSome then
    let complexity := complexity node
    if (match filterOptions.minComplexity with
        | some minComplexity => decide (complexity < minComplexity)
        | none => false) then false
    else if (match filterOptions.maxComplexity with
        | some maxComplexity => decide (complexity > maxComplexity)
        | none => false) then false
    else true
  else true

/-- The memo `filteredNodes` (lines 187-226). -/
def filteredNodes (nodes : List Node) (filterOptions : FilterOptions) : List Node :=
  if filterOptions.keys.length = 0 then nodes
  else nodes.filter (nodeFilter filterOptions)

/-- The memo `filteredEdges` (lines 229-234); its second argument is the
value of `filteredNodes`. -/
def filteredEdges (edges : List Edge) (filteredNodes : List Node) : List Edge :=
  let filteredNodeIds := filteredNodes.map (fun node => node.id)
  edges.filter (fun edge =>
    filteredNodeIds.contains edge.source && filteredNodeIds.contains edge.target)

/-! ## GraphViewer.jsx: effects (lines 138-184) -/

/-- The effect on `initialNodes` (lines 138-153). -/
def initialNodesEffect (v : ViewerState) (initialNodes : List Node) : ViewerState :=
  if initialNodes.length > 0 then
    { v with nodes := initialNodes, isInitialized := true }
  else
    { v with nodes := [], isInitialized := false }

/-- The effect on `initialEdges` (lines 156-159). -/
def initialEdgesEffect (v : ViewerState) (initialEdges : List Edge) : ViewerState :=
  { v with edges := initialEdges }

/-- The auto-fit effect (lines 165-184) at the render that follows a state
update: `prev` is the state of the previous render, `cur` the updated one.
The effect runs when one of its dependencies `isInitialized`, `nodes.length`,
`reactFlowInstance` (line 184) differs between the two, and then bumps the
key under the condition of line 166 (the instance object is always truthy). -/
def autoFitEffect (prev cur : ViewerState) : ViewerState :=
  if cur.isInitialized != prev.isInitialized || cur.nodes.length != prev.nodes.length
      || cur.reactFlowInstance != prev.reactFlowInstance then
    if cur.isInitialized && decide (cur.nodes.length > 0) then
      { cur with reactFlowKey := cur.reactFlowKey + 1 }
    else cur
  else cur

/-- Modelled from the spec: the visualisation widget and its hook
`useReactFlow` are library code, not under src/.  When the widget has been
unmounted or mounted, the hook returns another object, and the viewer is
rendered again at once, before any pending state update of its own effects;
the auto-fit effect runs in that render. -/
def widgetRemounted (v : ViewerState) : ViewerState :=
  autoFitEffect v { v with reactFlowInstance := v.reactFlowInstance + 1 }

/-- First render of the viewer with the given props, and the effects of the
mount: the widget is mounted, then the state updates of the prop effects are
rendered. -/
def mount (initialNodes : List Node) (initialEdges : List Edge) : ViewerState :=
  let v0 : ViewerState := widgetRemounted { nodes := initialNodes, edges := initialEdges }
  autoFitEffect v0 (initialEdgesEffect (initialNodesEffect v0 initialNodes) initialEdges)

/-- A render in which the props `initialNodes` and `initialEdges` are new
arrays: both prop effects run, then the auto-fit effect sees the update. -/
def receiveProps (v : ViewerState) (initialNodes : List Node) (initialEdges : List Edge) :
    ViewerState :=
  autoFitEffect v (initialEdgesEffect (initialNodesEffect v initialNodes) initialEdges)

/-! ## GraphViewer.jsx: fallback `handleLayoutChange` (lines 50-127) -/

/-- What the viewer's `handleLayoutChange` does before any `await`. -/
inductive LayoutRequest where
  | delegated (layoutType : String)
  | skipped
  | unavailable
  | issued (call : EngineCall)
  deriving DecidableEq, Repr

/-- The node mapping of lines 69-79. -/
def serializeNode (node : Node) : EngineNode :=
  { id := node.id,
    name := if node.data.label = "" then node.id else node.data.label,
    filePath := some (node.data.filePath.getD ""),
    type := if node.data.nodeType = "" then "module" else node.data.nodeType,
    exports := node.data.exports,
    imports := node.data.imports,
    functions := node.data.functions,
    components := node.data.components,
    metadata := some (node.data.metadata.getD {}) }

/-- The value of `edge.data?.edgeType || "import"`. -/
def edgeTypeOf (edge : Edge) : String :=
  match edge.data with
  | none => "import"
  | some d => orDefault d.edgeType "import"

/-- The edge mapping of lines 80-86. -/
def serializeEdge (edge : Edge) : EngineEdge :=
  { id := edge.id, source := edge.source, target := edge.target,
    type := edgeTypeOf edge,
    imports := some ((edge.data.bind (fun d => d.imports)).getD []) }

/-- Lines 50-97: up to the `await`.  `onLayoutChange` tells whether the
parent passed a handler, `graphApi` whether `window.electronAPI.graph` is
there. -/
def handleLayoutChangeRequest (onLayoutChange graphApi : Bool) (v : ViewerState)
    (layoutType : String) : LayoutRequest :=
  if onLayoutChange then .delegated layoutType
  else if v.nodes.length = 0 then .skipped
  else if graphApi then
    .issued (.generateLayout
      { nodes := some (v.nodes.map serializeNode),
        edges := some (v.edges.map serializeEdge) } layoutType)
  else .unavailable

/-- Lines 99-126: what runs when the promise of line 94 settles. -/
def handleLayoutChangeResolve (v : ViewerState) (o : Outcome LayoutResult) : ViewerState :=
  match o with
  | .rejected _ => v
  | .resolved layoutResult =>
    if layoutResult.success then
      match layoutResult.nodes with
      | some nodes =>
        autoFitEffect v
          { v with nodes := nodes, edges := layoutResult.edges.getD [],
                   pendingRemounts := v.pendingRemounts + 1 }
      | none => v
    else v

/-- The timer callback of lines 108-115 firing once. -/
def remountTimer (v : ViewerState) : ViewerState :=
  if v.pendingRemounts = 0 then v
  else { v with reactFlowKey := v.reactFlowKey + 1,
                pendingRemounts := v.pendingRemounts - 1 }

/-! ## GraphViewer.jsx: drag-stop patch (lines 396-405) -/

/-- The `onNodeDragStop` handler: `nodeId` and `position` are those of the
dragged node. -/
def onNodeDragStop (v : ViewerState) (nodeId : String) (position : Position) :
    ViewerState :=
  { v with nodes := v.nodes.map (fun n =>
      if n.id = nodeId then { n with position := position } else n) }

end GraphViewer

namespace MainPage

/-! ## main-page.jsx: `handleLayoutChange` (lines 476-522) -/

/-- A call of `setGraphData` with a freshly built object. -/
def setGraphData (s : MainState) (graphData : GraphData) : MainState :=
  { s with graphData := graphData, graphDataRef := s.graphDataRef + 1 }

/-- The node mapping of lines 486-496 (and 288-298). -/
def serializeNode (node : Node) : EngineNode :=
  { id := node.id,
    name := node.data.label,
    filePath := node.data.filePath,
    type := node.data.nodeType,
    exports := node.data.exports,
    imports := node.data.imports,
    components := node.data.components,
    functions := node.data.functions,
    metadata := node.data.metadata }

/-- The edge mapping of lines 497-502 (and 299-304). -/
def serializeEdge (edge : Edge) : EngineEdge :=
  { id := edge.id, source := edge.source, target := edge.target,
    type := GraphViewer.edgeTypeOf edge }

/-- The local `dependencyGraph` of lines 485-503. -/
def dependencyGraph (graphData : GraphData) : DependencyGraph :=
  { nodes := some (graphData.nodes.map serializeNode),
    edges := some (graphData.edges.map serializeEdge) }

/-- The value of `!projectPath`. -/
def noProjectPath (projectPath : Option String) : Bool :=
  match projectPath with
  | none => true
  | some p => p = ""

/-- Lines 476-508: the guard, the three state updates and the call that is
awaited. -/
def handleLayoutChangeRequest (isElectronAvailable : Bool) (s : MainState)
    (layoutType : String) : MainState × Option EngineCall :=
  if !isElectronAvailable || noProjectPath s.projectPath || s.graphData.nodes.length = 0 then
    (s, none)
  else
    ({ s with currentLayout := layoutType, isLoading := true,
              loadingStep := "레이아웃을 변경하고 있습니다..." },
      some (.generateLayout (dependencyGraph s.graphData) layoutType))

/-- Lines 510-521: what runs when the promise of line 505 settles, on the
state of that moment. -/
def handleLayoutChangeResolve (s : MainState) (o : Outcome LayoutResult) : MainState :=
  let s1 :=
    match o with
    | .resolved layoutResult =>
      if layoutResult.success then
        setGraphData s
          { nodes := layoutResult.nodes.getD [], edges := layoutResult.edges.getD [] }
      else s
    | .rejected _ => s
  { s1 with isLoading := false, loadingStep := "" }

/-- The whole handler when nothing else happens while the call is pending. -/
def handleLayoutChange (api : Option ElectronAPI) (s : MainState) (layoutType : String) :
    MainState :=
  match api, handleLayoutChangeRequest api.isSome s layoutType with
  | some a, (s1, some (.generateLayout g t)) =>
    handleLayoutChangeResolve s1 (a.generateLayout g t)
  | _, (s1, _) => s1

/-! ## main-page.jsx: `analyzeProject` (lines 357-442) -/

/-- Lines 358-365: the guard, the two state updates and the first call. -/
def analyzeProjectStart (isElectronAvailable : Bool) (s : MainState) (folderPath : String) :
    MainState × Option EngineCall :=
  if !isElectronAvailable then (s, none)
  else
    ({ s with isLoading := true, loadingStep := "프로젝트를 분석하고 있습니다..." },
      some (.analyzeProject folderPath))

/-- The `catch` block (lines 428-437) up to its `return`; the reset it
schedules is `analyzeProjectErrorTimeout`. -/
def analyzeProjectCatch (s : MainState) (message : String) : MainState :=
  { s with loadingStep := "오류: " ++ message }

/-- The timer callback of lines 433-436. -/
def analyzeProjectErrorTimeout (s : MainState) : MainState :=
  { s with isLoading := false, loadingStep := "" }

/-- Lines 367-387: from the settling of the analysis call to the layout
call.  `currentLayout` is the value the closure captured.  The log statement
of lines 377-380 reads `dependencyGraph.edges.length` and throws when `edges`
is missing. -/
def analyzeProjectAnalysed (s : MainState) (currentLayout : String)
    (o : Outcome ProjectResult) : MainState × Option EngineCall :=
  match o with
  | .rejected message => (analyzeProjectCatch s message, none)
  | .resolved projectResult =>
    if !projectResult.success then
      (analyzeProjectCatch s (orDefault projectResult.error "프로젝트 분석에 실패했습니다"), none)
    else
      match projectResult.dependencyGraph with
      | none => (analyzeProjectCatch s "분석할 파일을 찾을 수 없습니다", none)
      | some dg =>
        match dg.nodes with
        | none => (analyzeProjectCatch s "분석할 파일을 찾을 수 없습니다", none)
        | some nodes =>
          if nodes.length = 0 then
            (analyzeProjectCatch s "분석할 파일을 찾을 수 없습니다", none)
          else
            match dg.edges with
            | none =>
              (analyzeProjectCatch s "TypeError: dependencyGraph.edges is undefined", none)
            | some _ =>
              ({ s with loadingStep := "그래프 레이아웃을 생성하고 있습니다..." },
                some (.generateLayout dg currentLayout))

/-- Lines 389-441: from the settling of the layout call to the end. -/
def analyzeProjectLaidOut (s : MainState) (o : Outcome LayoutResult) : MainState :=
  match o with
  | .rejected message => analyzeProjectCatch s message
  | .resolved layoutResult =>
    if !layoutResult.success then
      analyzeProjectCatch s (orDefault layoutResult.error "레이아웃 생성에 실패했습니다")
    else
      let newGraphData : GraphData :=
        { nodes := layoutResult.nodes.getD [], edges := layoutResult.edges.getD [] }
      let s1 := setGraphData s newGraphData
      { s1 with isLoading := false, loadingStep := "" }

/-- The whole of `analyzeProject` when nothing else happens while its two
calls are pending. -/
def analyzeProject (api : Option ElectronAPI) (s : MainState) (folderPath : String) :
    MainState :=
  match api with
  | none => s
  | some a =>
    match analyzeProjectStart true s folderPath with
    | (s1, some (.analyzeProject path)) =>
      match analyzeProjectAnalysed s1 s.currentLayout (a.analyzeProject path) with
      | (s2, some (.generateLayout dg layoutType)) =>
        analyzeProjectLaidOut s2 (a.generateLayout dg layoutType)
      | (s2, _) => s2
    | (s1, _) => s1

end MainPage

/-! ## The page and the viewer together -/

/-- The renders that follow a state update of the page.  The viewer receives
`isLoading`: while that is set it returns the spinner instead of the widget
(lines 360-369 of GraphViewer.jsx), so a flip of `isLoading` unmounts or
mounts the widget.  It receives `graphData.nodes` and `graphData.edges` as
`initialNodes` and `initialEdges` (lines 658-667 of main-page.jsx): its prop
effects run when `graphData` is a new object, and their state updates are
rendered after the render that the widget causes. -/
def App.commit (a : App) (page : MainState) : App :=
  let remounted : ViewerState :=
    if page.isLoading = a.page.isLoading then a.viewer
    else GraphViewer.widgetRemounted a.viewer
  { page := page,
    viewer :=
      if page.graphDataRef = a.page.graphDataRef then remounted
      else GraphViewer.receiveProps remounted page.graphData.nodes page.graphData.edges }

/-- The application at start: the page holding `graphData` and the viewer
mounted on it. -/
def App.start (graphData : GraphData) : App :=
  { page := { graphData := graphData },
    viewer := GraphViewer.mount graphData.nodes graphData.edges }

/-- A layout response reaching the page's `handleLayoutChange`. -/
def App.layoutResponse (a : App) (o : Outcome LayoutResult) : App :=
  a.commit (MainPage.handleLayoutChangeResolve a.page o)

/-- A layout response reaching `analyzeProject`. -/
def App.analysisLayoutResponse (a : App) (o : Outcome LayoutResult) : App :=
  a.commit (MainPage.analyzeProjectLaidOut a.page o)

/-- A layout change requested through the page's `handleLayoutChange`: the
part that runs before the call is awaited. -/
def App.layoutRequest (a : App) (isElectronAvailable : Bool) (layoutType : String) : App :=
  a.commit (MainPage.handleLayoutChangeRequest isElectronAvailable a.page layoutType).1

/-- The application shows the snapshot `(nodes, edges)`: it is the page's
`graphData` and the node and edge state of the viewer. -/
def App.Shows (a : App) (nodes : List Node) (edges : List Edge) : Prop :=
  a.page.graphData = { nodes := nodes, edges := edges } ∧
    a.viewer.nodes = nodes ∧ a.viewer.edges = edges

instance (a : App) (nodes : List Node) (edges : List Edge) : Decidable (a.Shows nodes edges) := by
  unfold App.Shows
  infer_instance

/-! ## GraphViewer.jsx: selection (lines 243-273) -/

/-- The part of a click event that `handleNodeClick` reads. -/
structure ClickEvent where
  ctrlKey : Bool := false
  metaKey : Bool := false
  deriving DecidableEq, Repr

namespace GraphViewer

/-- `set.add(id)` on a `Set` kept as the list of its members in insertion
order. -/
def setAdd (set : List String) (id : String) : List String :=
  if set.contains id then set else set ++ [id]

/-- `set.delete(id)`. -/
def setDelete (set : List String) (id : String) : List String :=
  set.filter (fun member => member != id)

/-- `new Set(ids)` for an array of ids: the members are added one by one. -/
def setOfArray (ids : List String) : List String :=
  ids.foldl setAdd []

/-- The handler `handleNodeClick` (lines 243-263).  The result is the
updated viewer state together with the arguments of the call
`onNodeClick(node, Array.from(selectedNodes))` of line 261, made when the
parent passed a handler (`onNodeClick`); `selectedNodes` there is the set of
the render in which the handler was created. -/
def handleNodeClick (onNodeClick : Bool) (v : ViewerState) (event : ClickEvent) (node : Node) :
    ViewerState × Option (Node × List String) :=
  let v1 : ViewerState :=
    if event.ctrlKey || event.metaKey then
      { v with selectedNodes :=
          -- `const newSet = new Set(prev)`: a copy of the current set
          let newSet := v.selectedNodes
          if newSet.contains node.id then setDelete newSet node.id
          else setAdd newSet node.id }
    else
      { v with selectedNodes := setOfArray [node.id] }
  (v1, if onNodeClick then some (node, v.selectedNodes) else none)

/-- The handler `handleSelectionChange` (lines 266-273); `elementsNodes` is
`elements.nodes`.  The second component is the argument of the call
`onNodeSelect(selectedNodeIds)`, made when the parent passed a handler. -/
def handleSelectionChange (onNodeSelect : Bool) (v : ViewerState)
    (elementsNodes : Option (List Node)) : ViewerState × Option (List String) :=
  let selectedNodeIds :=
    match elementsNodes with
    | some nodes => nodes.map (fun node => node.id)
    | none => []
  ({ v with selectedNodes := setOfArray selectedNodeIds },
    if onNodeSelect then some selectedNodeIds else none)

/-! ## GraphViewer.jsx: highlight derivation (lines 301-346) -/

/-- The three style properties that `styledNodes` sets; the other properties
of `node.style` pass through unchanged and are left out. -/
structure NodeStyle where
  opacity : ℚ
  transform : String
  transition : String
  deriving DecidableEq, Repr

/-- An element of `styledNodes`: the node it spreads, and the properties the
memo sets on top of it. -/
structure StyledNode where
  node : Node
  selected : Bool
  draggable : Bool
  style : NodeStyle
  deriving DecidableEq, Repr

/-- The memo `styledNodes` (lines 319-329); its first argument is the value
of `filteredNodes`.  The position bookkeeping of lines 303-317 only logs. -/
def styledNodes (filteredNodes : List Node) (selectedNodes : List String) : List StyledNode :=
  filteredNodes.map (fun node =>
    { node := node,
      selected := selectedNodes.contains node.id,
      draggable := true,
      style :=
        { opacity :=
            if selectedNodes.length = 0 || selectedNodes.contains node.id then 1 else 0.3,
          transform := if selectedNodes.contains node.id then "scale(1.1)" else "scale(1)",
          transition := "all 0.2s ease-in-out" } })

/-- The two style properties that `styledEdges` sets; the other properties of
`edge.style` pass through unchanged and are left out. -/
structure StyledEdgeStyle where
  opacity : ℚ
  strokeWidth : Nat
  deriving DecidableEq, Repr

/-- An element of `styledEdges`. -/
structure StyledEdge where
  edge : Edge
  style : StyledEdgeStyle
  deriving DecidableEq, Repr

/-- The value of `edge.style?.strokeWidth || 2`. -/
def strokeWidthOf (edge : Edge) : Nat :=
  match edge.style with
  | none => 2
  | some style =>
    match style.strokeWidth with
    | none => 2
    | some w => if w = 0 then 2 else w

/-- The memo `styledEdges` (lines 333-346); its first argument is the value
of `filteredEdges`. -/
def styledEdges (filteredEdges : List Edge) (selectedNodes : List String) : List StyledEdge :=
  filteredEdges.map (fun edge =>
    let isConnectedToSelected :=
      selectedNodes.contains edge.source || selectedNodes.contains edge.target
    { edge := edge,
      style :=
        { opacity := if selectedNodes.length = 0 || isConnectedToSelected then 1 else 0.2,
          strokeWidth := if isConnectedToSelected then 3 else strokeWidthOf edge } })

end GraphViewer

namespace MainPage

/-! ## main-page.jsx: selection handlers (lines 445-473) -/

/-- The handler `handleNodeClick` (lines 445-452), without the reset of the
AI analysis entry. -/
def handleNodeClick (s : MainState) (node : Node) (selectedNodesList : List String) :
    MainState :=
  { s with selectedNode := some node,
           selectedNodes := selectedNodesList.map SelectionEntry.id,
           showDetailPanel := true }

/-- The handler `handleNodeSelect` (lines 455-473). -/
def handleNodeSelect (s : MainState) (nodeIds : List String) : MainState :=
  match nodeIds with
  | [nodeId] =>
    match s.graphData.nodes.find? (fun n => n.id = nodeId) with
    | some node =>
      { s with selectedNode := some node, selectedNodes := [SelectionEntry.node node],
               showDetailPanel := true }
    | none => s
  | _ :: _ :: _ =>
    let nodes := s.graphData.nodes.filter (fun n => nodeIds.contains n.id)
    { s with selectedNodes := nodes.map SelectionEntry.node, selectedNode := none,
             showDetailPanel := true }
  | [] =>
    { s with selectedNode := none, selectedNodes := [], showDetailPanel := false }

/-! ## main-page.jsx: `applyDagreToSample` (lines 264-335) -/

/-- Lines 266-310: the two guards and the call that is awaited.  The effect
runs once, so `graphData` is the value of the first render. -/
def applyDagreToSampleRequest (isElectronAvailable : Bool) (graphData : GraphData) :
    Option EngineCall :=
  if graphData.nodes.length = 0 then none
  else if !isElectronAvailable then none
  else some (.generateLayout (dependencyGraph graphData) "dagre")

/-- Lines 312-329: what runs when the promise of line 307 settles. -/
def applyDagreToSampleResolve (s : MainState) (o : Outcome LayoutResult) : MainState :=
  match o with
  | .resolved layoutResult =>
    if layoutResult.success &&
        (match layoutResult.nodes with
         | some nodes => decide (nodes.length > 0)
         | none => false) then
      setGraphData s
        { nodes := layoutResult.nodes.getD [], edges := layoutResult.edges.getD [] }
    else s
  | .rejected _ => s

/-- The whole of `applyDagreToSample` when nothing else happens between the
first render and the settling of its call. -/
def applyDagreToSample (api : Option ElectronAPI) (s : MainState) : MainState :=
  match api, applyDagreToSampleRequest api.isSome s.graphData with
  | some a, some (.generateLayout g t) => applyDagreToSampleResolve s (a.generateLayout g t)
  | _, _ => s

end MainPage

/-- A click on a node of the rendered graph: the viewer's handler runs and
calls the page's `handleNodeClick`, passed as `onNodeClick`. -/
def App.nodeClick (a : App) (event : ClickEvent) (node : Node) : App :=
  match GraphViewer.handleNodeClick true a.viewer event node with
  | (v, some (clicked, selectedNodesList)) =>
    { page := MainPage.handleNodeClick a.page clicked selectedNodesList, viewer := v }
  | (v, none) => { a with viewer := v }

/-- A selection change reported to the viewer: its handler runs and calls
the page's `handleNodeSelect`, passed as `onNodeSelect`. -/
def App.selectionChange (a : App) (elementsNodes : Option (List Node)) : App :=
  match GraphViewer.handleSelectionChange true a.viewer elementsNodes with
  | (v, some nodeIds) => { page := MainPage.handleNodeSelect a.page nodeIds, viewer := v }
  | (v, none) => { a with viewer := v }

/-- A layout response reaching `applyDagreToSample`. -/
def App.sampleLayoutResponse (a : App) (o : Outcome LayoutResult) : App :=
  a.commit (MainPage.applyDagreToSampleResolve a.page o)

/-- Modelled from the spec: the visualisation widget is library code, not
under src/.  The viewer hands it the selection through the `selected` flag of
`styledNodes` (line 321) and registers `handleSelectionChange` as its
`onSelectionChange` (line 392); the widget calls that with the nodes it holds
as selected, which are the styled nodes whose flag is set. -/
def GraphViewer.widgetSelection (v : ViewerState) (filterOptions : FilterOptions) :
    List Node :=
  ((GraphViewer.styledNodes (GraphViewer.filteredNodes v.nodes filterOptions)
      v.selectedNodes).filter (fun sn => sn.selected)).map (fun sn => sn.node)

/-- Modelled from the spec: a click on a node inside the widget, which is
library code, not under src/.  The click handlers run (`App.nodeClick`);
when the nodes held as selected are no longer the same, the widget then
calls `onSelectionChange` with them (`App.selectionChange`). -/
def App.clickInWidget (a : App) (event : ClickEvent) (node : Node) : App :=
  let clicked := a.nodeClick event node
  let reported := GraphViewer.widgetSelection clicked.viewer clicked.page.filterOptions
  if reported = GraphViewer.widgetSelection a.viewer a.page.filterOptions then clicked
  else clicked.selectionChange (some reported)

/-- A click with the ctrl key held. -/
def ClickEvent.ctrl : ClickEvent := { ctrlKey := true }

/-- A click with no modifier key. -/
def ClickEvent.plain : ClickEvent := {}

/-! ## main-page.jsx: `sampleGraphData` (lines 30-219) -/

namespace MainPage

/-- A node of `sampleGraphData`: `type` is `custom` and `draggable` is `true`
in all eight. -/
def sampleNode (id : String) (x y : Int) (label filePath nodeType : String)
    (exports imports components functions : List String) (complexity : Int) : Node :=
  { id := id, type := "custom", position := { x := x, y := y },
    data := { label := label, filePath := some filePath, nodeType := nodeType,
              exports := exports, imports := imports, components := components,
              functions := functions, metadata := some { complexity := some complexity } },
    draggable := true }

/-- An edge of `sampleGraphData`: `type` is `smoothstep` and `data.edgeType`
is `import` in all eight. -/
def sampleEdge (id source target : String) : Edge :=
  { id := id, source := source, target := target, type := "smoothstep",
    data := some { edgeType := some "import" } }

/-- The constant `sampleGraphData`, the initial value of `graphData`. -/
def sampleGraphData : GraphData :=
  { nodes :=
      [ sampleNode "MainPage.jsx" 200 50 "MainPage" "/src/pages/MainPage.jsx" "component"
          ["MainPage"] ["React", "GraphViewer", "DetailPanel"] ["MainPage"]
          ["MainPage", "handleLayoutChange", "analyzeProject"] 15,
        sampleNode "App.jsx" 100 150 "App" "/src/App.jsx" "component"
          ["App"] ["React", "GraphViewer"] ["App"] ["App"] 5,
        sampleNode "GraphViewer.jsx" 300 150 "GraphViewer" "/src/components/GraphViewer.jsx"
          "component" ["GraphViewer"] ["React", "ReactFlow"] ["GraphViewer"]
          ["GraphViewer", "useNodesState", "useEdgesState"] 12,
        sampleNode "DetailPanel.jsx" 500 150 "DetailPanel" "/src/components/DetailPanel.jsx"
          "component" ["DetailPanel"] ["React"] ["DetailPanel"]
          ["DetailPanel", "formatMetadata"] 8,
        sampleNode "GraphService.js" 200 250 "GraphService" "/src/services/GraphService.js"
          "module" ["GraphService"] ["dagre"] []
          ["generateLayout", "addNode", "addEdge", "_generateDagreLayout"] 18,
        sampleNode "CustomNode.jsx" 400 250 "CustomNode" "/src/components/CustomNode.jsx"
          "component" ["CustomNode"] ["React"] ["CustomNode"] ["CustomNode"] 7,
        sampleNode "utils.js" 100 350 "utils" "/src/utils/utils.js" "module"
          ["formatData", "validateInput"] [] [] ["formatData", "validateInput", "debounce"] 4,
        sampleNode "config.js" 300 350 "config" "/src/config/config.js" "config"
          ["config"] [] [] [] 1 ],
    edges :=
      [ sampleEdge "App->GraphViewer" "App.jsx" "GraphViewer.jsx",
        sampleEdge "GraphViewer->GraphService" "GraphViewer.jsx" "GraphService.js",
        sampleEdge "GraphViewer->CustomNode" "GraphViewer.jsx" "CustomNode.jsx",
        sampleEdge "MainPage->App" "MainPage.jsx" "App.jsx",
        sampleEdge "MainPage->GraphViewer" "MainPage.jsx" "GraphViewer.jsx",
        sampleEdge "MainPage->DetailPanel" "MainPage.jsx" "DetailPanel.jsx",
        sampleEdge "App->utils" "App.jsx" "utils.js",
        sampleEdge "utils->config" "utils.js" "config.js" ] }

end MainPage

/-! ## The state machine of the viewer -/

/-- The events that change, or could change, the state of `GraphViewerInner`. -/
inductive ViewerEvent where
  /-- new `initialNodes` / `initialEdges` props: a replacement of the snapshot -/
  | props (initialNodes : List Node) (initialEdges : List Edge)
  /-- the promise of the fallback `handleLayoutChange` settles -/
  | layoutResponse (o : Outcome LayoutResult)
  /-- a timer scheduled by the fallback `handleLayoutChange` fires -/
  | remountTimer
  /-- a click on a node -/
  | click (event : ClickEvent) (node : Node)
  /-- a selection change reported by the widget -/
  | selectionChange (elementsNodes : Option (List Node))
  /-- the end of a drag -/
  | dragStop (nodeId : String) (position : Position)
  /-- new `filterOptions` prop -/
  | filterChange (filterOptions : FilterOptions)
  /-- `onNodesChange`: the widget installs a node list of its own -/
  | nodesChange (nodes : List Node)
  /-- `onEdgesChange` / `onConnect`: the widget installs an edge list -/
  | edgesChange (edges : List Edge)
  /-- the widget was unmounted or mounted: `useReactFlow` returns a new object -/
  | instanceChange

/-- One step of the viewer.  The filter criteria are a prop, so a filter
change leaves the state cells as they are; a node list installed through
`onNodesChange` is followed by the auto-fit effect like any node update, and
so is a new object from `useReactFlow`. -/
def GraphViewer.step (v : ViewerState) : ViewerEvent → ViewerState
  | .props initialNodes initialEdges => GraphViewer.receiveProps v initialNodes initialEdges
  | .layoutResponse o => GraphViewer.handleLayoutChangeResolve v o
  | .remountTimer => GraphViewer.remountTimer v
  | .click event node => (GraphViewer.handleNodeClick true v event node).1
  | .selectionChange elementsNodes =>
    (GraphViewer.handleSelectionChange true v elementsNodes).1
  | .dragStop nodeId position => GraphViewer.onNodeDragStop v nodeId position
  | .filterChange _ => v
  | .nodesChange nodes => GraphViewer.autoFitEffect v { v with nodes := nodes }
  | .edgesChange edges => { v with edges := edges }
  | .instanceChange => GraphViewer.widgetRemounted v

/-- A run of the viewer: the events applied in order. -/
def GraphViewer.run (v : ViewerState) (events : List ViewerEvent) : ViewerState :=
  events.foldl GraphViewer.step v

/-- The state of the first render, before any effect has run. -/
def GraphViewer.firstRender (initialNodes : List Node) (initialEdges : List Edge) :
    ViewerState :=
  { nodes := initialNodes, edges := initialEdges }

/-! ## working-version App.jsx: `forceRepositionNodes` (lines 221-231) -/

namespace FlowComponent

/-- The node list built by `forceRepositionNodes` (lines 222-228) and
installed with `setNodes`. -/
def forceRepositionNodes (nodes : List Node) : List Node :=
  nodes.enum.map (fun (entry : Nat × Node) =>
    let index := entry.1
    let node := entry.2
    { node with
      position :=
        { x := ((index % 3) * 200 + 100 : Nat), y := ((index / 3) * 150 + 100 : Nat) } })

end FlowComponent

/-! ## Failure of a collaborator, as the specification lists it -/

/-- The layout engine answered `success = false`, or the call threw. -/
def Outcome.layoutFailed : Outcome LayoutResult → Bool
  | .rejected _ => true
  | .resolved r => !r.success

/-- The analysis engine answered `success = false`, or the call threw, or
the dependency graph is missing or has a missing or empty node list. -/
def Outcome.analysisFailed : Outcome ProjectResult → Bool
  | .rejected _ => true
  | .resolved r =>
    !r.success ||
      (match r.dependencyGraph with
       | none => true
       | some dg =>
         match dg.nodes with
         | none => true
         | some nodes => nodes.isEmpty)

/-! ## Criteria with a single field, cut out of a given criteria object -/

/-- The criteria holding only the `nodeTypes` field of `filterOptions`. -/
def FilterOptions.kindsOnly (filterOptions : FilterOptions) : FilterOptions :=
  { nodeTypes := filterOptions.nodeTypes }

/-- The criteria holding only the `searchTerm` field of `filterOptions`. -/
def FilterOptions.searchOnly (filterOptions : FilterOptions) : FilterOptions :=
  { searchTerm := filterOptions.searchTerm }

/-- The criteria holding only the two complexity bounds of `filterOptions`. -/
def FilterOptions.complexityOnly (filterOptions : FilterOptions) : FilterOptions :=
  { minComplexity := filterOptions.minComplexity,
    maxComplexity := filterOptions.maxComplexity }

/-! ## Concrete inputs -/

namespace Examples

/-- A node with the given id, kind and complexity. -/
def mkNode (id kind : String) (c : Int) : Node :=
  { id := id, position := { x := 0, y := 0 },
    data := { label := id, filePath := some ("/src/" ++ id), nodeType := kind,
              metadata := some { complexity := some c } } }

/-- An edge between two node ids. -/
def mkEdge (source target : String) : Edge :=
  { id := source ++ "->" ++ target, source := source, target := target,
    data := some { edgeType := some "import" } }

/-- Three nodes of which only `A` is a component. -/
def abcNodes : List Node :=
  [mkNode "A" "component" 3, mkNode "B" "module" 7, mkNode "C" "config" 1]

/-- The chain `A -> B -> C`. -/
def abcEdges : List Edge := [mkEdge "A" "B", mkEdge "B" "C"]

/-- A model whose only edge points at an id that is not a node. -/
def danglingNodes : List Node := [mkNode "A" "component" 3]

/-- An edge from `A` to the missing id `Z`. -/
def danglingEdges : List Edge := [mkEdge "A" "Z"]

/-- The application showing `A -> B -> C` with a project opened. -/
def abcApp : App :=
  let a := App.start { nodes := abcNodes, edges := abcEdges }
  { a with page := { a.page with projectPath := some "/project" } }

/-- Node `A` moved to a new place. -/
def movedA : Node := { mkNode "A" "component" 3 with position := { x := 40, y := 90 } }

/-- A successful layout response carrying one node and no edge list. -/
def goodResult : LayoutResult := { success := true, nodes := some [movedA] }

/-- A response with `success = true` and an empty node list. -/
def emptyResult : LayoutResult := { success := true, nodes := some [] }

/-- A response with `success = true` and no node list at all. -/
def missingResult : LayoutResult := { success := true }

/-- A response with `success = false`. -/
def failedResult : LayoutResult := { success := false, error := some "layout failed" }

/-- An engine that answers every layout request with `r` and every analysis
request with `p`. -/
def constEngine (p : Outcome ProjectResult) (r : Outcome LayoutResult) : ElectronAPI :=
  { analyzeProject := fun _ => p, generateLayout := fun _ _ => r }

/-- An analysis answer with one node and an empty edge list. -/
def goodAnalysis : ProjectResult :=
  { success := true,
    dependencyGraph := some { nodes := some [MainPage.serializeNode movedA], edges := some [] } }

/-- Node `A` of the model A, B, C. -/
def nodeA : Node := mkNode "A" "component" 3

/-- Node `B` of the model A, B, C. -/
def nodeB : Node := mkNode "B" "module" 7

/-- The application at start, on `sampleGraphData`, before any project is
opened. -/
def sampleApp : App := App.start MainPage.sampleGraphData

/-- A layout response that moves the three nodes A, B, C and keeps the two
edges. -/
def movedResult : LayoutResult :=
  { success := true,
    nodes := some
      [ { nodeA with position := { x := 10, y := 10 } },
        { nodeB with position := { x := 10, y := 200 } },
        { mkNode "C" "config" 1 with position := { x := 10, y := 400 } } ],
    edges := some abcEdges }

/-- A layout response carrying two nodes X, Y with ids unknown so far and
the edge between them. -/
def otherResult : LayoutResult :=
  { success := true,
    nodes := some [mkNode "X" "module" 2, mkNode "Y" "module" 4],
    edges := some [mkEdge "X" "Y"] }

/-- An edge A->B whose own stroke width is 3. -/
def wideEdge : Edge := { mkEdge "A" "B" with style := some { strokeWidth := some 3 } }

/-- An edge B->C whose own stroke width is 0. -/
def hairlineEdge : Edge := { mkEdge "B" "C" with style := some { strokeWidth := some 0 } }

/-- A node with an empty label, no file path and no metadata. -/
def bareNode : Node :=
  { id := "bare.js", position := { x := 0, y := 0 },
    data := { label := "", nodeType := "module" } }

/-- A layout response for the sample snapshot: its eight nodes at new
positions and its eight edges. -/
def sampleRelayout : LayoutResult :=
  { success := true,
    nodes := some (FlowComponent.forceRepositionNodes MainPage.sampleGraphData.nodes),
    edges := some MainPage.sampleGraphData.edges }

/-- A node with the given label and no file path. -/
def labelled (label : String) : Node :=
  { id := label, position := { x := 0, y := 0 },
    data := { label := label, nodeType := "module" } }

end Examples

/-! # Theorems -/

open GraphViewer

/-! ## Helper lemmas: built-ins -/

theorem includes_iff_infix (hay needle : String) :
    includes hay needle = true ↔ needle.data <:+: hay.data := by
  unfold includes
  rw [List.any_eq_true, List.infix_iff_prefix_suffix]
  constructor
  · rintro ⟨t, ht, hp⟩
    exact ⟨t, List.isPrefixOf_iff_prefix.mp hp, (List.mem_tails _ _).mp ht⟩
  · rintro ⟨t, hp, ht⟩
    exact ⟨t, (List.mem_tails _ _).mpr ht, List.isPrefixOf_iff_prefix.mpr hp⟩

theorem complexity_eq_getD (node : Node) :
    complexity node = (node.data.metadata.bind Metadata.complexity).getD 0 := by
  unfold complexity
  cases h : node.data.metadata with
  | none => rfl
  | some md =>
    cases hc : md.complexity with
    | none => simp [hc]
    | some c =>
      by_cases h0 : c = 0 <;> simp [hc, h0]

/-! ## Helper lemmas: the filter callback -/

/-- The three conditions under which the callback keeps a node. -/
theorem nodeFilter_iff (fo : FilterOptions) (n : Node) :
    nodeFilter fo n = true ↔
      (∀ ks, fo.nodeTypes = some ks → ks ≠ [] → n.data.nodeType ∈ ks) ∧
      (∀ s, fo.searchTerm = some s → s ≠ "" →
        (toLowerCase s).data <:+: (toLowerCase n.data.label).data ∨
        (toLowerCase s).data <:+: (toLowerCase (n.data.filePath.getD "")).data) ∧
      (∀ m, fo.minComplexity = some m → m ≤ complexity n) ∧
      (∀ M, fo.maxComplexity = some M → complexity n ≤ M) := by
  obtain ⟨nt, st, lo, hi, ok⟩ := fo
  have hpath : (match n.data.filePath with
      | some p => toLowerCase p
      | none => "") = toLowerCase (n.data.filePath.getD "") := by
    cases n.data.filePath <;> rfl
  unfold nodeFilter
  simp only [hpath]
  have hlen : ∀ ks : List String, (0 < ks.length) ↔ ks ≠ [] := fun ks => List.length_pos
  cases nt with
  | none =>
    cases st with
    | none =>
      cases lo <;> cases hi <;> simp [not_lt]
    | some s =>
      by_cases hs : s = ""
      · cases lo <;> cases hi <;> simp [hs, not_lt]
      · by_cases h1 : (toLowerCase s).data <:+: (toLowerCase n.data.label).data <;>
        by_cases h2 : (toLowerCase s).data <:+: (toLowerCase (n.data.filePath.getD "")).data <;>
        cases lo <;> cases hi <;>
          simp [hs, h1, h2, not_lt, includes_iff_infix]
  | some ks =>
    by_cases hk : ks = []
    · subst hk
      cases st with
      | none =>
        cases lo <;> cases hi <;> simp [not_lt]
      | some s =>
        by_cases hs : s = ""
        · cases lo <;> cases hi <;> simp [hs, not_lt]
        · by_cases h1 : (toLowerCase s).data <:+: (toLowerCase n.data.label).data <;>
          by_cases h2 : (toLowerCase s).data <:+: (toLowerCase (n.data.filePath.getD "")).data <;>
          cases lo <;> cases hi <;>
            simp [hs, h1, h2, not_lt, includes_iff_infix]
    · have hpos : 0 < ks.length := List.length_pos.mpr hk
      by_cases hm : n.data.nodeType ∈ ks
      · cases st with
        | none =>
          cases lo <;> cases hi <;> simp [not_lt, hk, hm, hpos]
        | some s =>
          by_cases hs : s = ""
          · cases lo <;> cases hi <;> simp [hs, not_lt, hk, hm, hpos]
          · by_cases h1 : (toLowerCase s).data <:+: (toLowerCase n.data.label).data <;>
            by_cases h2 : (toLowerCase s).data <:+: (toLowerCase (n.data.filePath.getD "")).data <;>
            cases lo <;> cases hi <;>
              simp [hs, h1, h2, not_lt, includes_iff_infix, hk, hm, hpos]
      · simp [hk, hm, hpos]

theorem filteredNodes_eq_filter (nodes : List Node) (fo : FilterOptions) :
    filteredNodes nodes fo = nodes.filter (nodeFilter fo) := by
  unfold filteredNodes
  split
  · next h =>
    have hk := List.length_eq_zero.mp h
    simp only [FilterOptions.keys, List.append_eq_nil, ite_eq_right_iff,
      List.cons_ne_self, imp_false, reduceCtorEq] at hk
    obtain ⟨⟨⟨⟨h1, h2⟩, h3⟩, h4⟩, _⟩ := hk
    symm
    rw [List.filter_eq_self]
    intro a _
    rw [nodeFilter_iff]
    refine ⟨?_, ?_, ?_, ?_⟩ <;> intro x hx <;> simp_all
  · rfl

theorem mem_filteredNodes (nodes : List Node) (fo : FilterOptions) (n : Node) :
    n ∈ filteredNodes nodes fo ↔ n ∈ nodes ∧ nodeFilter fo n = true := by
  rw [filteredNodes_eq_filter, List.mem_filter]

theorem mem_filteredEdges (edges : List Edge) (visibleNodes : List Node) (e : Edge) :
    e ∈ filteredEdges edges visibleNodes ↔
      e ∈ edges ∧ (∃ n ∈ visibleNodes, n.id = e.source) ∧
        (∃ n ∈ visibleNodes, n.id = e.target) := by
  simp [filteredEdges, List.mem_filter]

/-! ## C1: filter identity -/

/-- C1 fails as stated: with empty criteria a model holding an edge whose
target is not a node loses that edge, so the edge ids differ. -/
theorem filter_identity_fails_on_dangling_edge :
    ¬ (∀ i, i ∈ (filteredEdges Examples.danglingEdges
            (filteredNodes Examples.danglingNodes {})).map (fun e => e.id) ↔
          i ∈ Examples.danglingEdges.map (fun e => e.id)) := by
  intro h
  have h1 := (h "A->Z").mpr (by decide)
  revert h1
  decide

/-- C1 (amended): under criteria with no keys the visible node list is the
model's node list, and when every edge has both endpoints among the model's
node ids the visible edge list is the model's edge list; hence the node ids
and the edge ids are the same. -/
theorem filter_identity (nodes : List Node) (edges : List Edge) (fo : FilterOptions)
    (hempty : fo.keys = [])
    (hclosed : ∀ e ∈ edges, e.source ∈ nodes.map (fun n => n.id) ∧
      e.target ∈ nodes.map (fun n => n.id)) :
    filteredNodes nodes fo = nodes ∧
      filteredEdges edges (filteredNodes nodes fo) = edges ∧
      (∀ i, i ∈ (filteredNodes nodes fo).map (fun n => n.id) ↔
        i ∈ nodes.map (fun n => n.id)) ∧
      (∀ i, i ∈ (filteredEdges edges (filteredNodes nodes fo)).map (fun e => e.id) ↔
        i ∈ edges.map (fun e => e.id)) := by
  have hn : filteredNodes nodes fo = nodes := by
    unfold filteredNodes
    simp [hempty]
  have he : filteredEdges edges (filteredNodes nodes fo) = edges := by
    rw [hn]
    unfold filteredEdges
    rw [List.filter_eq_self]
    intro e hmem
    have := hclosed e hmem
    simpa using this
  refine ⟨hn, he, ?_, ?_⟩
  · intro i; rw [hn]
  · intro i; rw [he]

/-- The model A -> B -> C under criteria with no keys is shown unchanged. -/
theorem filter_identity_witness :
    filteredNodes Examples.abcNodes {} = Examples.abcNodes ∧
      filteredEdges Examples.abcEdges (filteredNodes Examples.abcNodes {}) =
        Examples.abcEdges :=
  have h := filter_identity Examples.abcNodes Examples.abcEdges {} (by decide) (by decide)
  ⟨h.1, h.2.1⟩

/-! ## C2: edge visibility -/

/-- C2: an edge is in `filteredEdges` exactly when it is an edge of the model
and both its source and its target are ids of nodes in `filteredNodes`; for
nodes A, B, C with edges A->B and B->C and only A passing the kind filter,
the visible nodes are A alone and no edge is visible. -/
theorem edge_visible_iff_both_endpoints_visible :
    (∀ (nodes : List Node) (edges : List Edge) (fo : FilterOptions) (e : Edge),
      e ∈ filteredEdges edges (filteredNodes nodes fo) ↔
        e ∈ edges ∧ (∃ n ∈ filteredNodes nodes fo, n.id = e.source) ∧
          (∃ n ∈ filteredNodes nodes fo, n.id = e.target)) ∧
    (filteredNodes Examples.abcNodes { nodeTypes := some ["component"] }).map
        (fun n => n.id) = ["A"] ∧
    filteredEdges Examples.abcEdges
        (filteredNodes Examples.abcNodes { nodeTypes := some ["component"] }) = [] :=
  ⟨fun nodes edges fo e => mem_filteredEdges edges (filteredNodes nodes fo) e,
    by decide, by decide⟩

/-! ## C3: kind filter -/

/-- C3 fails as stated: with `nodeTypes` provided but empty, every node stays
visible although no kind is a member of the empty collection. -/
theorem kind_filter_empty_collection_keeps_nodes :
    ¬ (∀ n ∈ filteredNodes Examples.abcNodes { nodeTypes := some [] },
        n.data.nodeType ∈ ([] : List String)) := by
  intro h
  have h1 := h (Examples.mkNode "A" "component" 3) (by decide)
  revert h1
  decide

/-- C3 (amended): when `nodeTypes` is provided and not empty, a node is in
`filteredNodes` only if its kind is a member of that collection; when it is
provided and empty it filters nothing: the visible nodes are the ones under
the same criteria without the `nodeTypes` field, and they are all the nodes
of the model when `nodeTypes` is the only field. -/
theorem kind_filter_sound (nodes : List Node) (fo : FilterOptions) (ks : List String)
    (hks : fo.nodeTypes = some ks) :
    (ks ≠ [] → ∀ n ∈ filteredNodes nodes fo, n.data.nodeType ∈ ks) ∧
    (ks = [] → filteredNodes nodes fo = filteredNodes nodes { fo with nodeTypes := none }) ∧
    (ks = [] → filteredNodes nodes { nodeTypes := some ks } = nodes) := by
  refine ⟨?_, ?_, ?_⟩
  · intro hne n hn
    exact ((nodeFilter_iff fo n).mp ((mem_filteredNodes nodes fo n).mp hn).2).1 ks hks hne
  · intro hempty
    subst hempty
    rw [filteredNodes_eq_filter, filteredNodes_eq_filter]
    apply List.filter_congr
    intro n _
    rw [Bool.eq_iff_iff, nodeFilter_iff, nodeFilter_iff]
    constructor
    · rintro ⟨-, h2, h3, h4⟩
      exact ⟨fun ks' h => (by cases h), h2, h3, h4⟩
    · rintro ⟨-, h2, h3, h4⟩
      refine ⟨?_, h2, h3, h4⟩
      intro ks' h hne
      rw [hks] at h
      cases h
      exact absurd rfl hne
  · intro hempty
    subst hempty
    rw [filteredNodes_eq_filter, List.filter_eq_self]
    intro n _
    rw [nodeFilter_iff]
    refine ⟨?_, ?_, ?_, ?_⟩
    · intro ks' h hne
      cases h
      exact absurd rfl hne
    · intro t h; cases h
    · intro m h; cases h
    · intro m h; cases h

/-- Node A, a component, stays visible under the kinds component and test;
under the empty kinds collection the model A, B, C is shown whole, and with
a minimum complexity of 3 beside it exactly A and B are shown, as without
it. -/
theorem kind_filter_sound_witness :
    (Examples.mkNode "A" "component" 3).data.nodeType ∈ ["component", "test"] ∧
    filteredNodes Examples.abcNodes { nodeTypes := some [] } = Examples.abcNodes ∧
    filteredNodes Examples.abcNodes { nodeTypes := some [], minComplexity := some 3 } =
      filteredNodes Examples.abcNodes { minComplexity := some 3 } :=
  ⟨(kind_filter_sound Examples.abcNodes { nodeTypes := some ["component", "test"] }
      ["component", "test"] rfl).1 (by decide) (Examples.mkNode "A" "component" 3)
      (by decide),
    (kind_filter_sound Examples.abcNodes { nodeTypes := some [] } [] rfl).2.2 rfl,
    (kind_filter_sound Examples.abcNodes
      { nodeTypes := some [], minComplexity := some 3 } [] rfl).2.1 rfl⟩

/-! ## C4: search filter -/

theorem mem_filteredNodes_search (nodes : List Node) (s : String) (n : Node) :
    n ∈ filteredNodes nodes { searchTerm := some s } ↔
      n ∈ nodes ∧
        (s = "" ∨
          (toLowerCase s).data <:+: (toLowerCase n.data.label).data ∨
          (toLowerCase s).data <:+: (toLowerCase (n.data.filePath.getD "")).data) := by
  rw [mem_filteredNodes, nodeFilter_iff]
  constructor
  · rintro ⟨hmem, -, hs, -, -⟩
    refine ⟨hmem, ?_⟩
    by_cases h0 : s = ""
    · exact Or.inl h0
    · exact Or.inr (hs s rfl h0)
  · rintro ⟨hmem, h⟩
    refine ⟨hmem, ?_, ?_, ?_, ?_⟩
    · intro ks hks; cases hks
    · intro t ht hne
      cases ht
      rcases h with h | h
      · exact absurd h hne
      · exact h
    · intro m hm; cases hm
    · intro m hm; cases hm

/-- C4: under criteria whose only field is `searchTerm = s`, a node is in
`filteredNodes` exactly when it is a node of the model and `s` is empty, or
the lower-cased `s` occurs in the lower-cased label, or it occurs in the
lower-cased file path (the empty string when the path is missing).  The
match ignores case, also outside the ASCII letters, and rejects what does
not match: of the labels `ÉCOLE`, `MainPage`, `utils` the term `PAGE` keeps
`MainPage` alone, `école` keeps `ÉCOLE` alone, `xyz` keeps none and the empty
term keeps all; of the model A, B, C the term `SRC/b` keeps B, through its
file path `/src/B`. -/
theorem search_filter_iff :
    (∀ (nodes : List Node) (s : String) (n : Node),
      n ∈ filteredNodes nodes { searchTerm := some s } ↔
        n ∈ nodes ∧
          (s = "" ∨
            (toLowerCase s).data <:+: (toLowerCase n.data.label).data ∨
            (toLowerCase s).data <:+: (toLowerCase (n.data.filePath.getD "")).data)) ∧
    toLowerCase "MainPage.JSX" = "mainpage.jsx" ∧
    toLowerCase "ÉCOLE" = "école" ∧
    toLowerCase "mainpage" = "mainpage" ∧
    (filteredNodes
        [Examples.labelled "ÉCOLE", Examples.labelled "MainPage", Examples.labelled "utils"]
        { searchTerm := some "PAGE" }).map (fun n => n.id) = ["MainPage"] ∧
    (filteredNodes
        [Examples.labelled "ÉCOLE", Examples.labelled "MainPage", Examples.labelled "utils"]
        { searchTerm := some "école" }).map (fun n => n.id) = ["ÉCOLE"] ∧
    (filteredNodes
        [Examples.labelled "ÉCOLE", Examples.labelled "MainPage", Examples.labelled "utils"]
        { searchTerm := some "xyz" }).map (fun n => n.id) = [] ∧
    (filteredNodes
        [Examples.labelled "ÉCOLE", Examples.labelled "MainPage", Examples.labelled "utils"]
        { searchTerm := some "" }).map (fun n => n.id) = ["ÉCOLE", "MainPage", "utils"] ∧
    (filteredNodes Examples.abcNodes { searchTerm := some "SRC/b" }).map (fun n => n.id) =
      ["B"] := by
  refine ⟨mem_filteredNodes_search, by decide, ?_, by decide, ?_, ?_, ?_, ?_, by decide⟩
  · set_option maxRecDepth 8000 in decide
  · set_option maxRecDepth 8000 in decide
  · set_option maxRecDepth 8000 in decide
  · set_option maxRecDepth 8000 in decide
  · set_option maxRecDepth 8000 in decide

/-! ## C5: complexity filter -/

/-- C5: under criteria whose only fields are the complexity bounds, a node is
in `filteredNodes` exactly when it is a node of the model and its complexity
(0 when `metadata` or `complexity` is absent) is at least `minComplexity` when
that is supplied and at most `maxComplexity` when that is supplied. -/
theorem complexity_filter_iff (nodes : List Node) (lo hi : Option Int) (n : Node) :
    n ∈ filteredNodes nodes { minComplexity := lo, maxComplexity := hi } ↔
      n ∈ nodes ∧
        (∀ m ∈ lo, m ≤ (n.data.metadata.bind Metadata.complexity).getD 0) ∧
        (∀ M ∈ hi, (n.data.metadata.bind Metadata.complexity).getD 0 ≤ M) := by
  rw [mem_filteredNodes, nodeFilter_iff, ← complexity_eq_getD]
  constructor
  · rintro ⟨hmem, -, -, hlo, hhi⟩
    exact ⟨hmem, fun m hm => hlo m (Option.mem_def.mp hm),
      fun M hM => hhi M (Option.mem_def.mp hM)⟩
  · rintro ⟨hmem, hlo, hhi⟩
    refine ⟨hmem, ?_, ?_, fun m hm => hlo m (Option.mem_def.mpr hm),
      fun M hM => hhi M (Option.mem_def.mpr hM)⟩
    · intro ks hks; cases hks
    · intro t ht; cases ht

/-! ## C6: conjunction of the three predicates -/

theorem nodeFilter_eq_and (fo : FilterOptions) (n : Node) :
    nodeFilter fo n =
      (nodeFilter fo.kindsOnly n && nodeFilter fo.searchOnly n &&
        nodeFilter fo.complexityOnly n) := by
  rw [Bool.eq_iff_iff]
  simp only [Bool.and_eq_true, nodeFilter_iff, FilterOptions.kindsOnly,
    FilterOptions.searchOnly, FilterOptions.complexityOnly]
  constructor
  · rintro ⟨h1, h2, h3, h4⟩
    refine ⟨⟨⟨h1, ?_, ?_, ?_⟩, ⟨?_, h2, ?_, ?_⟩⟩, ⟨?_, ?_, h3, h4⟩⟩ <;>
      intro x hx <;> cases hx
  · rintro ⟨⟨⟨h1, -⟩, ⟨-, h2, -⟩⟩, ⟨-, -, h3, h4⟩⟩
    exact ⟨h1, h2, h3, h4⟩

/-- C6: a node is in `filteredNodes` under criteria `fo` exactly when it is in
`filteredNodes` under the kind field of `fo` alone, under the search field
alone and under the complexity bounds alone; the visible node list is the
intersection of the three single-field lists. -/
theorem filters_compose_by_and (nodes : List Node) (fo : FilterOptions) :
    (∀ n, n ∈ filteredNodes nodes fo ↔
      n ∈ filteredNodes nodes fo.kindsOnly ∧ n ∈ filteredNodes nodes fo.searchOnly ∧
        n ∈ filteredNodes nodes fo.complexityOnly) ∧
    filteredNodes nodes fo =
      (filteredNodes nodes fo.kindsOnly ∩ filteredNodes nodes fo.searchOnly) ∩
        filteredNodes nodes fo.complexityOnly := by
  constructor
  · intro n
    simp only [mem_filteredNodes, nodeFilter_eq_and fo n, Bool.and_eq_true]
    tauto
  · simp only [filteredNodes_eq_filter, List.inter_def, List.filter_filter]
    apply List.filter_congr
    intro n hn
    rw [nodeFilter_eq_and fo n]
    simp [List.mem_filter, hn, Bool.and_comm, Bool.and_assoc]

/-! ## C7: monotonicity in the complexity bounds -/

/-- C7: when `c2` has the kind and search fields of `c1` and complexity
bounds at least as tight (each bound of `c1` is present in `c2` with a
minimum that is no smaller and a maximum that is no larger), at most as many
nodes are visible under `c2` as under `c1`. -/
theorem tightening_complexity_never_adds_nodes (nodes : List Node) (c1 c2 : FilterOptions)
    (hkinds : c2.nodeTypes = c1.nodeTypes) (hsearch : c2.searchTerm = c1.searchTerm)
    (hmin : ∀ a ∈ c1.minComplexity, ∃ b ∈ c2.minComplexity, a ≤ b)
    (hmax : ∀ a ∈ c1.maxComplexity, ∃ b ∈ c2.maxComplexity, b ≤ a) :
    (filteredNodes nodes c2).length ≤ (filteredNodes nodes c1).length := by
  rw [filteredNodes_eq_filter, filteredNodes_eq_filter]
  apply List.Sublist.length_le
  apply List.monotone_filter_right
  intro n hn
  rw [nodeFilter_iff] at hn ⊢
  obtain ⟨h1, h2, h3, h4⟩ := hn
  refine ⟨fun ks hks => h1 ks (hkinds.trans hks), fun s hs => h2 s (hsearch.trans hs), ?_, ?_⟩
  · intro m hm
    obtain ⟨b, hb, hab⟩ := hmin m (Option.mem_def.mpr hm)
    exact le_trans hab (h3 b (Option.mem_def.mp hb))
  · intro M hM
    obtain ⟨b, hb, hba⟩ := hmax M (Option.mem_def.mpr hM)
    exact le_trans (h4 b (Option.mem_def.mp hb)) hba

/-- Raising the minimum from 2 to 5 and adding the maximum 9 on the model
A, B, C does not add nodes. -/
theorem tightening_complexity_never_adds_nodes_witness :
    (filteredNodes Examples.abcNodes
        { nodeTypes := some ["component", "module"], minComplexity := some 5,
          maxComplexity := some 9 }).length ≤
      (filteredNodes Examples.abcNodes
        { nodeTypes := some ["component", "module"], minComplexity := some 2 }).length :=
  tightening_complexity_never_adds_nodes Examples.abcNodes
    { nodeTypes := some ["component", "module"], minComplexity := some 2 }
    { nodeTypes := some ["component", "module"], minComplexity := some 5,
      maxComplexity := some 9 }
    rfl rfl
    (fun a ha => ⟨5, rfl, by cases ha; decide⟩)
    (fun a ha => by cases ha)

/-! ## Helper lemmas: effects -/

theorem autoFitEffect_nodes (prev cur : ViewerState) :
    (autoFitEffect prev cur).nodes = cur.nodes ∧ (autoFitEffect prev cur).edges = cur.edges := by
  unfold autoFitEffect
  split
  · split <;> exact ⟨rfl, rfl⟩
  · exact ⟨rfl, rfl⟩

theorem receiveProps_snapshot (v : ViewerState) (nodes : List Node) (edges : List Edge) :
    (receiveProps v nodes edges).nodes = nodes ∧ (receiveProps v nodes edges).edges = edges := by
  unfold receiveProps
  rw [(autoFitEffect_nodes _ _).1, (autoFitEffect_nodes _ _).2]
  unfold initialEdgesEffect initialNodesEffect
  cases nodes with
  | nil => exact ⟨rfl, rfl⟩
  | cons n ns => simp

theorem widgetRemounted_frame (v : ViewerState) :
    (widgetRemounted v).nodes = v.nodes ∧ (widgetRemounted v).edges = v.edges ∧
    (widgetRemounted v).selectedNodes = v.selectedNodes ∧
    (widgetRemounted v).isInitialized = v.isInitialized := by
  unfold GraphViewer.widgetRemounted autoFitEffect
  split
  · split <;> exact ⟨rfl, rfl, rfl, rfl⟩
  · exact ⟨rfl, rfl, rfl, rfl⟩

theorem autoFitEffect_self (v : ViewerState) : autoFitEffect v v = v := by
  simp [autoFitEffect]

theorem commit_same_page (a : App) : a.commit a.page = a := by
  unfold App.commit
  simp

theorem commit_setGraphData_shows (a : App) (s : MainState) (nodes : List Node)
    (edges : List Edge) (hg : s.graphData = { nodes := nodes, edges := edges })
    (href : s.graphDataRef = a.page.graphDataRef + 1) : (a.commit s).Shows nodes edges := by
  unfold App.Shows App.commit
  have hne : ¬ s.graphDataRef = a.page.graphDataRef := by omega
  simp only [hne, if_false]
  refine ⟨hg, ?_, ?_⟩
  · rw [hg]; exact (receiveProps_snapshot _ _ _).1
  · rw [hg]; exact (receiveProps_snapshot _ _ _).2

theorem layoutResponse_shows (a : App) (r : LayoutResult) (hs : r.success = true) :
    (a.layoutResponse (.resolved r)).Shows (r.nodes.getD []) (r.edges.getD []) := by
  unfold App.layoutResponse
  apply commit_setGraphData_shows
  · simp [MainPage.handleLayoutChangeResolve, MainPage.setGraphData, hs]
  · simp [MainPage.handleLayoutChangeResolve, MainPage.setGraphData, hs]

theorem analysisLayoutResponse_shows (a : App) (r : LayoutResult) (hs : r.success = true) :
    (a.analysisLayoutResponse (.resolved r)).Shows (r.nodes.getD []) (r.edges.getD []) := by
  unfold App.analysisLayoutResponse
  apply commit_setGraphData_shows
  · simp [MainPage.analyzeProjectLaidOut, MainPage.setGraphData, hs]
  · simp [MainPage.analyzeProjectLaidOut, MainPage.setGraphData, hs]

/-! ## C8: replacement by a layout response -/

/-- C8: a successful layout response carrying a node list `N` (non-empty or
not) and an edge list `E` (empty when missing) leaves the application showing
exactly `(N, E)`, from every prior state: also right after a drag-stop patch,
and whatever response was applied before it; the same holds for the layout
response inside `analyzeProject` and for the fallback handler of the viewer. -/
theorem layout_response_replaces_snapshot (r : LayoutResult) (N : List Node)
    (hsuccess : r.success = true) (hnodes : r.nodes = some N) :
    (∀ a : App, (a.layoutResponse (.resolved r)).Shows N (r.edges.getD [])) ∧
    (∀ (a : App) (nodeId : String) (p : Position),
      (App.layoutResponse { a with viewer := onNodeDragStop a.viewer nodeId p }
        (.resolved r)).Shows N (r.edges.getD [])) ∧
    (∀ (a : App) (earlier : Outcome LayoutResult),
      ((a.layoutResponse earlier).layoutResponse (.resolved r)).Shows N (r.edges.getD [])) ∧
    (∀ a : App, (a.analysisLayoutResponse (.resolved r)).Shows N (r.edges.getD [])) ∧
    (∀ v : ViewerState,
      (GraphViewer.handleLayoutChangeResolve v (.resolved r)).nodes = N ∧
      (GraphViewer.handleLayoutChangeResolve v (.resolved r)).edges = r.edges.getD []) := by
  have hN : r.nodes.getD [] = N := by rw [hnodes]; rfl
  have key : ∀ a : App, (a.layoutResponse (.resolved r)).Shows N (r.edges.getD []) := by
    intro a
    have h := layoutResponse_shows a r hsuccess
    rwa [hN] at h
  refine ⟨key, fun a nodeId p => key _, fun a earlier => key _, ?_, ?_⟩
  · intro a
    have h := analysisLayoutResponse_shows a r hsuccess
    rwa [hN] at h
  · intro v
    simp only [GraphViewer.handleLayoutChangeResolve, hsuccess, hnodes, if_true]
    exact autoFitEffect_nodes _ _

/-- A response carrying the moved node A alone is what the application shows,
after a drag of B and after an earlier response with no nodes. -/
theorem layout_response_replaces_snapshot_witness :
    ((App.layoutResponse
        { Examples.abcApp with
          viewer := onNodeDragStop Examples.abcApp.viewer "B" { x := 5, y := 5 } }
        (.resolved Examples.goodResult)).Shows [Examples.movedA] []) ∧
    ((Examples.abcApp.layoutResponse (.resolved Examples.emptyResult)).layoutResponse
        (.resolved Examples.goodResult)).Shows [Examples.movedA] [] :=
  have h := layout_response_replaces_snapshot Examples.goodResult [Examples.movedA] rfl rfl
  ⟨h.2.1 Examples.abcApp "B" { x := 5, y := 5 },
    h.2.2.1 Examples.abcApp (.resolved Examples.emptyResult)⟩

/-! ## C9: a successful response without nodes -/

/-- C9 (the code at the failing input): with a project open and three nodes
shown, a layout response with `success = true` and an empty node list, or
with no node list, makes the page's `handleLayoutChange` install the empty
snapshot, in the page and in the viewer; applied at this state, whose
loading flag is off, the response leaves the React key as it was.
The viewer's fallback handler keeps its state when the node list is missing,
but on an empty list it empties the viewer and schedules a remount that
bumps the key. -/
theorem empty_layout_result_replaces_snapshot :
    Examples.abcApp.Shows Examples.abcNodes Examples.abcEdges ∧
    (MainPage.handleLayoutChangeRequest true Examples.abcApp.page "force").2 =
      some (.generateLayout (MainPage.dependencyGraph Examples.abcApp.page.graphData)
        "force") ∧
    (MainPage.handleLayoutChange
        (some (Examples.constEngine (.rejected "") (.resolved Examples.emptyResult)))
        Examples.abcApp.page "force").graphData = { nodes := [], edges := [] } ∧
    (Examples.abcApp.layoutResponse (.resolved Examples.emptyResult)).Shows [] [] ∧
    (Examples.abcApp.layoutResponse (.resolved Examples.missingResult)).Shows [] [] ∧
    (Examples.abcApp.layoutResponse (.resolved Examples.emptyResult)).viewer.reactFlowKey =
      Examples.abcApp.viewer.reactFlowKey ∧
    GraphViewer.handleLayoutChangeResolve Examples.abcApp.viewer
        (.resolved Examples.missingResult) = Examples.abcApp.viewer ∧
    (GraphViewer.handleLayoutChangeResolve Examples.abcApp.viewer
        (.resolved Examples.emptyResult)).nodes = [] ∧
    (remountTimer (GraphViewer.handleLayoutChangeResolve Examples.abcApp.viewer
        (.resolved Examples.emptyResult))).reactFlowKey =
      Examples.abcApp.viewer.reactFlowKey + 1 := by
  decide

/-! ## C10: failure keeps the snapshot -/

theorem analyzeProjectCatch_graphData (s : MainState) (message : String) :
    (MainPage.analyzeProjectCatch s message).graphData = s.graphData ∧
      (MainPage.analyzeProjectCatch s message).graphDataRef = s.graphDataRef :=
  ⟨rfl, rfl⟩

theorem analyzeProjectAnalysed_graphData (s : MainState) (layout : String)
    (o : Outcome ProjectResult) :
    (MainPage.analyzeProjectAnalysed s layout o).1.graphData = s.graphData ∧
      (MainPage.analyzeProjectAnalysed s layout o).1.graphDataRef = s.graphDataRef := by
  unfold MainPage.analyzeProjectAnalysed
  repeat' split
  all_goals exact ⟨rfl, rfl⟩

theorem analyzeProjectAnalysed_failed (s : MainState) (layout : String)
    (o : Outcome ProjectResult) (h : o.analysisFailed = true) :
    (MainPage.analyzeProjectAnalysed s layout o).2 = none := by
  unfold MainPage.analyzeProjectAnalysed
  unfold Outcome.analysisFailed at h
  repeat' split
  all_goals first
    | rfl
    | simp_all

theorem handleLayoutChangeResolve_failed (s : MainState) (o : Outcome LayoutResult)
    (h : o.layoutFailed = true) :
    (MainPage.handleLayoutChangeResolve s o).graphData = s.graphData ∧
      (MainPage.handleLayoutChangeResolve s o).graphDataRef = s.graphDataRef := by
  cases o with
  | rejected m => exact ⟨rfl, rfl⟩
  | resolved r =>
    have hs : r.success = false := by simpa [Outcome.layoutFailed] using h
    simp [MainPage.handleLayoutChangeResolve, hs]

theorem analyzeProjectLaidOut_failed (s : MainState) (o : Outcome LayoutResult)
    (h : o.layoutFailed = true) :
    (MainPage.analyzeProjectLaidOut s o).graphData = s.graphData ∧
      (MainPage.analyzeProjectLaidOut s o).graphDataRef = s.graphDataRef := by
  cases o with
  | rejected m => exact ⟨rfl, rfl⟩
  | resolved r =>
    have hs : r.success = false := by simpa [Outcome.layoutFailed] using h
    simp [MainPage.analyzeProjectLaidOut, hs, MainPage.analyzeProjectCatch]

theorem handleLayoutChangeRequest_graphData (avail : Bool) (s : MainState) (layoutType : String) :
    (MainPage.handleLayoutChangeRequest avail s layoutType).1.graphData = s.graphData ∧
    ((MainPage.handleLayoutChangeRequest avail s layoutType).2 = none ∨
      (MainPage.handleLayoutChangeRequest avail s layoutType).2 =
        some (.generateLayout (MainPage.dependencyGraph s.graphData) layoutType)) := by
  unfold MainPage.handleLayoutChangeRequest
  split
  · exact ⟨rfl, Or.inl rfl⟩
  · exact ⟨rfl, Or.inr rfl⟩

theorem handleLayoutChange_failed (api : ElectronAPI) (s : MainState) (layoutType : String)
    (h : (api.generateLayout (MainPage.dependencyGraph s.graphData) layoutType).layoutFailed
      = true) :
    (MainPage.handleLayoutChange (some api) s layoutType).graphData = s.graphData := by
  obtain ⟨h1, h2⟩ := handleLayoutChangeRequest_graphData true s layoutType
  unfold MainPage.handleLayoutChange
  simp only [Option.isSome_some]
  rcases hreq : MainPage.handleLayoutChangeRequest true s layoutType with ⟨s1, call⟩
  rw [hreq] at h1 h2
  simp only at h1 h2
  rcases h2 with h2 | h2
  · subst h2
    exact h1
  · subst h2
    simp only
    rw [(handleLayoutChangeResolve_failed s1 _ h).1]
    exact h1

theorem analyzeProject_analysis_failed (api : ElectronAPI) (s : MainState) (path : String)
    (h : (api.analyzeProject path).analysisFailed = true) :
    (MainPage.analyzeProject (some api) s path).graphData = s.graphData := by
  unfold MainPage.analyzeProject MainPage.analyzeProjectStart
  simp only [Bool.not_true, Bool.false_eq_true, if_false]
  have h2 := analyzeProjectAnalysed_failed
    { s with isLoading := true, loadingStep := "프로젝트를 분석하고 있습니다..." }
    s.currentLayout (api.analyzeProject path) h
  have h1 := (analyzeProjectAnalysed_graphData
    { s with isLoading := true, loadingStep := "프로젝트를 분석하고 있습니다..." }
    s.currentLayout (api.analyzeProject path)).1
  rcases hres : MainPage.analyzeProjectAnalysed
    { s with isLoading := true, loadingStep := "프로젝트를 분석하고 있습니다..." }
    s.currentLayout (api.analyzeProject path) with ⟨s2, call⟩
  rw [hres] at h1 h2
  simp only at h1 h2
  subst h2
  exact h1

theorem analyzeProject_layout_failed (api : ElectronAPI) (s : MainState) (path : String)
    (h : ∀ dg, (api.generateLayout dg s.currentLayout).layoutFailed = true) :
    (MainPage.analyzeProject (some api) s path).graphData = s.graphData := by
  unfold MainPage.analyzeProject MainPage.analyzeProjectStart
  simp only [Bool.not_true, Bool.false_eq_true, if_false]
  have h1 := (analyzeProjectAnalysed_graphData
    { s with isLoading := true, loadingStep := "프로젝트를 분석하고 있습니다..." }
    s.currentLayout (api.analyzeProject path)).1
  have hcall : ∀ dg t, (MainPage.analyzeProjectAnalysed
      { s with isLoading := true, loadingStep := "프로젝트를 분석하고 있습니다..." }
      s.currentLayout (api.analyzeProject path)).2 = some (.generateLayout dg t) →
      t = s.currentLayout := by
    intro dg t
    unfold MainPage.analyzeProjectAnalysed
    repeat' split
    all_goals simp
    intro _ ht
    exact ht.symm
  rcases hres : MainPage.analyzeProjectAnalysed
    { s with isLoading := true, loadingStep := "프로젝트를 분석하고 있습니다..." }
    s.currentLayout (api.analyzeProject path) with ⟨s2, call⟩
  rw [hres] at h1 hcall
  simp only at h1 hcall
  cases call with
  | none => exact h1
  | some c =>
    cases c with
    | analyzeProject p => exact h1
    | generateLayout dg t =>
      simp only
      have ht := hcall dg t rfl
      subst ht
      rw [(analyzeProjectLaidOut_failed s2 _ (h dg)).1]
      exact h1

/-- C10: when the layout engine answers `success = false` or its call throws
(`o`), `handleLayoutChange` leaves `graphData` as it was, and so does the
layout step of `analyzeProject`; when the analysis engine answers
`success = false`, throws, or returns a missing or empty dependency graph
(`p`), `analyzeProject` issues no layout call and leaves `graphData` as it
was.  This holds for the step run when the promise settles, on any state,
and for each handler run as a whole against an engine giving that answer. -/
theorem collaborator_failure_keeps_snapshot (s : MainState) (layout : String)
    (o : Outcome LayoutResult) (p : Outcome ProjectResult)
    (ho : o.layoutFailed = true) (hp : p.analysisFailed = true) :
    (MainPage.handleLayoutChangeResolve s o).graphData = s.graphData ∧
    (MainPage.analyzeProjectAnalysed s layout p).1.graphData = s.graphData ∧
    (MainPage.analyzeProjectAnalysed s layout p).2 = none ∧
    (MainPage.analyzeProjectLaidOut s o).graphData = s.graphData ∧
    (∀ api : ElectronAPI,
      api.generateLayout (MainPage.dependencyGraph s.graphData) layout = o →
      (MainPage.handleLayoutChange (some api) s layout).graphData = s.graphData) ∧
    (∀ (api : ElectronAPI) (path : String), api.analyzeProject path = p →
      (MainPage.analyzeProject (some api) s path).graphData = s.graphData) ∧
    (∀ (api : ElectronAPI) (path : String),
      (∀ dg, api.generateLayout dg s.currentLayout = o) →
      (MainPage.analyzeProject (some api) s path).graphData = s.graphData) := by
  refine ⟨(handleLayoutChangeResolve_failed s o ho).1,
    (analyzeProjectAnalysed_graphData s layout p).1,
    analyzeProjectAnalysed_failed s layout p hp,
    (analyzeProjectLaidOut_failed s o ho).1, ?_, ?_, ?_⟩
  · intro api h
    exact handleLayoutChange_failed api s layout (by rw [h]; exact ho)
  · intro api path h
    exact analyzeProject_analysis_failed api s path (by rw [h]; exact hp)
  · intro api path h
    exact analyzeProject_layout_failed api s path (fun dg => by rw [h dg]; exact ho)

/-- A failed layout answer and an analysis answer without a dependency graph
leave the snapshot A -> B -> C in place. -/
theorem collaborator_failure_keeps_snapshot_witness :
    (MainPage.handleLayoutChange
        (some (Examples.constEngine (.resolved Examples.goodAnalysis)
          (.resolved Examples.failedResult)))
        Examples.abcApp.page "force").graphData = Examples.abcApp.page.graphData ∧
    (MainPage.analyzeProject
        (some (Examples.constEngine (.resolved { success := true })
          (.resolved Examples.goodResult)))
        Examples.abcApp.page "/other").graphData = Examples.abcApp.page.graphData ∧
    (MainPage.analyzeProject
        (some (Examples.constEngine (.resolved Examples.goodAnalysis)
          (.resolved Examples.failedResult)))
        Examples.abcApp.page "/other").graphData = Examples.abcApp.page.graphData :=
  have h := collaborator_failure_keeps_snapshot Examples.abcApp.page "force"
    (.resolved Examples.failedResult) (.resolved { success := true }) (by decide) (by decide)
  ⟨h.2.2.2.2.1 _ rfl, h.2.2.2.2.2.1 _ "/other" rfl, h.2.2.2.2.2.2 _ "/other" (fun _ => rfl)⟩

/-! ## C11: no engine available -/

/-- C11: with `window.electronAPI` absent, the initial sample layout, the
page's `handleLayoutChange` and `analyzeProject` issue no engine call and
return the state they were given: the graph snapshot, and for
`handleLayoutChange` also the current layout kind, are unchanged.  The
fallback handler of the viewer issues no call either. -/
theorem no_engine_no_call_no_change :
    (∀ g : GraphData, MainPage.applyDagreToSampleRequest false g = none) ∧
    (∀ s : MainState, MainPage.applyDagreToSample none s = s) ∧
    (∀ (s : MainState) (layoutType : String),
      MainPage.handleLayoutChangeRequest false s layoutType = (s, none) ∧
      MainPage.handleLayoutChange none s layoutType = s ∧
      (MainPage.handleLayoutChange none s layoutType).graphData = s.graphData ∧
      (MainPage.handleLayoutChange none s layoutType).currentLayout = s.currentLayout) ∧
    (∀ (s : MainState) (folderPath : String),
      MainPage.analyzeProjectStart false s folderPath = (s, none) ∧
      MainPage.analyzeProject none s folderPath = s) ∧
    (∀ (v : ViewerState) (layoutType : String) (call : EngineCall),
      GraphViewer.handleLayoutChangeRequest false false v layoutType ≠ .issued call) := by
  refine ⟨?_, ?_, ?_, ?_, ?_⟩
  · intro g
    unfold MainPage.applyDagreToSampleRequest
    split <;> rfl
  · intro s
    unfold MainPage.applyDagreToSample
    rfl
  · intro s layoutType
    have h : MainPage.handleLayoutChange none s layoutType = s := by
      unfold MainPage.handleLayoutChange MainPage.handleLayoutChangeRequest
      simp
    refine ⟨rfl, h, ?_, ?_⟩ <;> rw [h]
  · intro s folderPath
    exact ⟨rfl, rfl⟩
  · intro v layoutType call
    unfold GraphViewer.handleLayoutChangeRequest
    by_cases h : v.nodes.length = 0 <;> simp [h]

/-! ## C12: drag-stop position patch -/

theorem onNodeDragStop_noop (v : ViewerState) (nodeId : String) (p : Position)
    (h : ∀ n ∈ v.nodes, n.id ≠ nodeId) : onNodeDragStop v nodeId p = v := by
  unfold onNodeDragStop
  have hmap : v.nodes.map (fun n => if n.id = nodeId then { n with position := p } else n)
      = v.nodes := by
    conv_rhs => rw [← List.map_id v.nodes]
    apply List.map_congr_left
    intro n hn
    simp [h n hn]
  rw [hmap]

/-- C12: the drag-stop patch keeps the length of the node list and the order
of its ids; the node at each index with the dragged id gets the new position
and keeps its id, type, data and draggable flag, every node with another id
is unchanged; edges, selection, initialisation flag and key are unchanged;
when no node has the id the whole state is unchanged.  Ids need not be
unique for this. -/
theorem drag_stop_patches_position_only (v : ViewerState) (nodeId : String) (p : Position) :
    (onNodeDragStop v nodeId p).nodes.length = v.nodes.length ∧
    (onNodeDragStop v nodeId p).nodes.map (fun n => n.id) = v.nodes.map (fun n => n.id) ∧
    (∀ (i : Nat) (n : Node), v.nodes[i]? = some n →
      ∃ patched, (onNodeDragStop v nodeId p).nodes[i]? = some patched ∧
        (n.id = nodeId → patched.position = p ∧ patched.id = n.id ∧
          patched.type = n.type ∧ patched.data = n.data ∧
          patched.draggable = n.draggable) ∧
        (n.id ≠ nodeId → patched = n)) ∧
    (onNodeDragStop v nodeId p).edges = v.edges ∧
    (onNodeDragStop v nodeId p).selectedNodes = v.selectedNodes ∧
    (onNodeDragStop v nodeId p).isInitialized = v.isInitialized ∧
    (onNodeDragStop v nodeId p).reactFlowKey = v.reactFlowKey ∧
    ((∀ n ∈ v.nodes, n.id ≠ nodeId) → onNodeDragStop v nodeId p = v) := by
  refine ⟨?_, ?_, ?_, rfl, rfl, rfl, rfl, onNodeDragStop_noop v nodeId p⟩
  · simp [onNodeDragStop]
  · simp only [onNodeDragStop, List.map_map]
    apply List.map_congr_left
    intro n _
    by_cases h : n.id = nodeId <;> simp [h]
  · intro i n hi
    refine ⟨if n.id = nodeId then { n with position := p } else n, ?_, ?_, ?_⟩
    · simp [onNodeDragStop, List.getElem?_map, hi]
    · intro h
      simp [h]
    · intro h
      simp [h]

/-- Dragging the id `Z`, which no node of the model A, B, C has, changes
nothing. -/
theorem drag_stop_patches_position_only_witness :
    onNodeDragStop Examples.abcApp.viewer "Z" { x := 1, y := 2 } = Examples.abcApp.viewer :=
  (drag_stop_patches_position_only Examples.abcApp.viewer "Z" { x := 1, y := 2 }).2.2.2.2.2.2.2
    (by decide)

/-! ## Helper lemmas: sets of ids -/

theorem contains_iff_mem (set : List String) (id : String) :
    set.contains id = true ↔ id ∈ set := by
  simp

theorem mem_setAdd (set : List String) (id m : String) :
    m ∈ setAdd set id ↔ m ∈ set ∨ m = id := by
  unfold setAdd
  by_cases h : id ∈ set
  · rw [if_pos ((contains_iff_mem set id).mpr h)]
    constructor
    · exact Or.inl
    · rintro (hm | hm)
      · exact hm
      · rw [hm]; exact h
  · rw [if_neg (fun hc => h ((contains_iff_mem set id).mp hc))]
    simp

theorem mem_setDelete (set : List String) (id m : String) :
    m ∈ setDelete set id ↔ m ∈ set ∧ m ≠ id := by
  simp [setDelete, List.mem_filter]

theorem mem_foldl_setAdd (ids acc : List String) (m : String) :
    m ∈ ids.foldl setAdd acc ↔ m ∈ acc ∨ m ∈ ids := by
  induction ids generalizing acc with
  | nil => simp
  | cons i rest ih =>
    rw [List.foldl_cons, ih, mem_setAdd, List.mem_cons]
    tauto

theorem mem_setOfArray (ids : List String) (m : String) : m ∈ setOfArray ids ↔ m ∈ ids := by
  unfold setOfArray
  rw [mem_foldl_setAdd]
  simp

theorem setOfArray_singleton (id : String) : setOfArray [id] = [id] := by
  simp [setOfArray, setAdd]

theorem nodeClick_eq (a : App) (event : ClickEvent) (node : Node) :
    a.nodeClick event node =
      { page := MainPage.handleNodeClick a.page node a.viewer.selectedNodes,
        viewer := (handleNodeClick true a.viewer event node).1 } := rfl

theorem handleNodeClick_modifier (v : ViewerState) (event : ClickEvent) (node : Node)
    (hmod : event.ctrlKey = true ∨ event.metaKey = true) :
    (handleNodeClick true v event node).1.selectedNodes =
      if node.id ∈ v.selectedNodes then setDelete v.selectedNodes node.id
      else setAdd v.selectedNodes node.id := by
  have h : (event.ctrlKey || event.metaKey) = true := by
    rcases hmod with h | h <;> simp [h]
  simp [handleNodeClick, h]

theorem mem_toggle (v : ViewerState) (event : ClickEvent) (node : Node)
    (hmod : event.ctrlKey = true ∨ event.metaKey = true) (m : String) :
    m ∈ (handleNodeClick true v event node).1.selectedNodes ↔
      (m = node.id ∧ node.id ∉ v.selectedNodes) ∨ (m ≠ node.id ∧ m ∈ v.selectedNodes) := by
  rw [handleNodeClick_modifier v event node hmod]
  by_cases hin : node.id ∈ v.selectedNodes
  · rw [if_pos hin]
    simp only [mem_setDelete]
    tauto
  · rw [if_neg hin, mem_setAdd]
    constructor
    · rintro (h | h)
      · right
        exact ⟨fun hm => hin (hm ▸ h), h⟩
      · left
        exact ⟨h, hin⟩
    · rintro (⟨h, -⟩ | ⟨-, h⟩)
      · exact Or.inr h
      · exact Or.inl h

/-! ## C13: plain click -/

/-- C13: a click with neither ctrl nor meta held makes the selection set of
the viewer exactly the singleton of the clicked node's id, whatever it was
before, and makes the clicked node the page's primary selection. -/
theorem plain_click_selects_clicked_node (a : App) (event : ClickEvent) (node : Node)
    (hctrl : event.ctrlKey = false) (hmeta : event.metaKey = false) :
    (a.nodeClick event node).viewer.selectedNodes = [node.id] ∧
    (a.nodeClick event node).page.selectedNode = some node := by
  rw [nodeClick_eq]
  refine ⟨?_, rfl⟩
  simp [handleNodeClick, hctrl, hmeta, setOfArray_singleton]

/-- A plain click on `B` after `A` was selected leaves `B` alone selected
and primary. -/
theorem plain_click_selects_clicked_node_witness :
    ((Examples.abcApp.nodeClick .plain Examples.nodeA).nodeClick .plain
        Examples.nodeB).viewer.selectedNodes = ["B"] ∧
    ((Examples.abcApp.nodeClick .plain Examples.nodeA).nodeClick .plain
        Examples.nodeB).page.selectedNode = some Examples.nodeB :=
  plain_click_selects_clicked_node (Examples.abcApp.nodeClick .plain Examples.nodeA) .plain
    Examples.nodeB rfl rfl

/-! ## C14: modifier click -/

/-- C14: a click with ctrl or meta held removes the clicked id from the
selection set when it is a member and adds it when it is not, and changes
the membership of no other id; a plain click on A followed by a ctrl-click
on B gives the set of A and B, and a further ctrl-click on A gives B alone. -/
theorem modifier_click_toggles_membership (a : App) (event : ClickEvent) (node : Node)
    (hmod : event.ctrlKey = true ∨ event.metaKey = true) :
    (node.id ∈ (a.nodeClick event node).viewer.selectedNodes ↔
      node.id ∉ a.viewer.selectedNodes) ∧
    (∀ m : String, m ≠ node.id →
      (m ∈ (a.nodeClick event node).viewer.selectedNodes ↔ m ∈ a.viewer.selectedNodes)) ∧
    ((Examples.abcApp.nodeClick .plain Examples.nodeA).nodeClick .ctrl
        Examples.nodeB).viewer.selectedNodes = ["A", "B"] ∧
    (((Examples.abcApp.nodeClick .plain Examples.nodeA).nodeClick .ctrl
        Examples.nodeB).nodeClick .ctrl Examples.nodeA).viewer.selectedNodes = ["B"] := by
  refine ⟨?_, ?_, by decide, by decide⟩
  · rw [nodeClick_eq, mem_toggle a.viewer event node hmod]
    simp
  · intro m hm
    rw [nodeClick_eq, mem_toggle a.viewer event node hmod]
    simp [hm]

/-- A meta-click on `C` with `A` selected adds `C` and keeps `A`. -/
theorem modifier_click_toggles_membership_witness :
    ("C" ∈ ((Examples.abcApp.nodeClick .plain Examples.nodeA).nodeClick { metaKey := true }
        (Examples.mkNode "C" "config" 1)).viewer.selectedNodes ↔
      "C" ∉ (Examples.abcApp.nodeClick .plain Examples.nodeA).viewer.selectedNodes) :=
  (modifier_click_toggles_membership (Examples.abcApp.nodeClick .plain Examples.nodeA)
    { metaKey := true } (Examples.mkNode "C" "config" 1) (Or.inr rfl)).1

/-! ## C15: toggling twice -/

theorem nodup_toggle (v : ViewerState) (event : ClickEvent) (node : Node)
    (hmod : event.ctrlKey = true ∨ event.metaKey = true) (hnd : v.selectedNodes.Nodup) :
    (handleNodeClick true v event node).1.selectedNodes.Nodup := by
  rw [handleNodeClick_modifier v event node hmod]
  by_cases hin : node.id ∈ v.selectedNodes
  · rw [if_pos hin]
    exact hnd.filter _
  · rw [if_neg hin]
    unfold setAdd
    rw [if_neg (fun hc => hin ((contains_iff_mem _ _).mp hc)), List.nodup_append]
    refine ⟨hnd, List.nodup_singleton _, ?_⟩
    intro x hx hx1
    rw [List.mem_singleton] at hx1
    exact hin (hx1 ▸ hx)

/-- C15: two successive clicks on the same node with ctrl or meta held leave
the selection set with the members it had before; when the set had no
duplicate entry the result is a rearrangement of it, so it has the same
size. -/
theorem double_modifier_click_restores_selection (a : App) (first second : ClickEvent)
    (node : Node) (h1 : first.ctrlKey = true ∨ first.metaKey = true)
    (h2 : second.ctrlKey = true ∨ second.metaKey = true) :
    (∀ m : String, m ∈ ((a.nodeClick first node).nodeClick second node).viewer.selectedNodes ↔
      m ∈ a.viewer.selectedNodes) ∧
    (a.viewer.selectedNodes.Nodup →
      ((a.nodeClick first node).nodeClick second node).viewer.selectedNodes.Perm
        a.viewer.selectedNodes) := by
  have hmem : ∀ m : String,
      m ∈ ((a.nodeClick first node).nodeClick second node).viewer.selectedNodes ↔
        m ∈ a.viewer.selectedNodes := by
    intro m
    rw [nodeClick_eq (a.nodeClick first node), mem_toggle _ second node h2, nodeClick_eq a]
    simp only [mem_toggle a.viewer first node h1]
    by_cases hm : m = node.id
    · subst hm
      simp
    · simp [hm]
  refine ⟨hmem, fun hnd => ?_⟩
  apply (List.perm_ext_iff_of_nodup ?_ hnd).mpr hmem
  rw [nodeClick_eq (a.nodeClick first node)]
  apply nodup_toggle _ second node h2
  rw [nodeClick_eq a]
  exact nodup_toggle a.viewer first node h1 hnd

/-- Two ctrl-clicks on `B` with `A` and `B` selected give back a
rearrangement of `A` and `B`. -/
theorem double_modifier_click_restores_selection_witness :
    ((((Examples.abcApp.nodeClick .plain Examples.nodeA).nodeClick .ctrl
        Examples.nodeB).nodeClick .ctrl Examples.nodeB).nodeClick .ctrl
        Examples.nodeB).viewer.selectedNodes.Perm
      ((Examples.abcApp.nodeClick .plain Examples.nodeA).nodeClick .ctrl
        Examples.nodeB).viewer.selectedNodes :=
  (double_modifier_click_restores_selection
    ((Examples.abcApp.nodeClick .plain Examples.nodeA).nodeClick .ctrl Examples.nodeB)
    .ctrl .ctrl Examples.nodeB (Or.inl rfl) (Or.inl rfl)).2 (by decide)

/-! ## C18: programmatic selection -/

theorem selectionChange_eq (a : App) (elementsNodes : Option (List Node)) :
    a.selectionChange elementsNodes =
      { page := MainPage.handleNodeSelect a.page
          (match elementsNodes with
           | some nodes => nodes.map (fun node => node.id)
           | none => []),
        viewer := (handleSelectionChange true a.viewer elementsNodes).1 } := rfl

/-- C18: a selection change carrying the node list `L` makes the selection
set of the viewer exactly the ids of `L`, whatever it was before, and when
`L` has more than one node the page has no primary selection afterwards. -/
theorem selection_change_replaces_selection (a : App) (L : List Node) :
    (∀ i : String, i ∈ (a.selectionChange (some L)).viewer.selectedNodes ↔
      i ∈ L.map (fun n => n.id)) ∧
    (1 < L.length → (a.selectionChange (some L)).page.selectedNode = none) := by
  rw [selectionChange_eq]
  constructor
  · intro i
    simp only [handleSelectionChange]
    exact mem_setOfArray _ i
  · intro hlen
    match L, hlen with
    | n1 :: n2 :: rest, _ => rfl

/-- With `C` selected by a click, a selection change to `A` and `B` leaves
exactly those two selected and no primary selection. -/
theorem selection_change_replaces_selection_witness :
    ((Examples.abcApp.nodeClick .plain (Examples.mkNode "C" "config" 1)).selectionChange
        (some [Examples.nodeA, Examples.nodeB])).page.selectedNode = none :=
  (selection_change_replaces_selection
    (Examples.abcApp.nodeClick .plain (Examples.mkNode "C" "config" 1))
    [Examples.nodeA, Examples.nodeB]).2 (by decide)

/-! ## C16, C17: the primary selection after a modifier click -/

theorem widgetSelection_eq (v : ViewerState) (fo : FilterOptions) :
    widgetSelection v fo =
      (filteredNodes v.nodes fo).filter (fun n => v.selectedNodes.contains n.id) := by
  unfold GraphViewer.widgetSelection styledNodes
  rw [List.filter_map, List.map_map]
  have hid : ((fun sn : StyledNode => sn.node) ∘ fun node : Node =>
      ({ node := node, selected := v.selectedNodes.contains node.id, draggable := true,
         style :=
          { opacity :=
              if (decide (v.selectedNodes.length = 0) || v.selectedNodes.contains node.id)
                = true then 1 else 0.3,
            transform :=
              if v.selectedNodes.contains node.id = true then "scale(1.1)" else "scale(1)",
            transition := "all 0.2s ease-in-out" } } : StyledNode)) = id := rfl
  rw [hid, List.map_id]
  rfl

theorem mem_widgetSelection (v : ViewerState) (fo : FilterOptions) (n : Node) :
    n ∈ widgetSelection v fo ↔ n ∈ filteredNodes v.nodes fo ∧ n.id ∈ v.selectedNodes := by
  rw [widgetSelection_eq, List.mem_filter]
  simp

theorem widgetSelection_congr (v w : ViewerState) (fo : FilterOptions)
    (hn : w.nodes = v.nodes) (hs : w.selectedNodes = v.selectedNodes) :
    widgetSelection w fo = widgetSelection v fo := by
  rw [widgetSelection_eq, widgetSelection_eq, hn, hs]

theorem nodeClick_frame (a : App) (event : ClickEvent) (node : Node) :
    (a.nodeClick event node).viewer.nodes = a.viewer.nodes ∧
    (a.nodeClick event node).page.filterOptions = a.page.filterOptions := by
  rw [nodeClick_eq]
  refine ⟨?_, rfl⟩
  simp only [handleNodeClick]
  split <;> rfl

theorem length_foldl_setAdd (ids acc : List String) :
    (ids.foldl setAdd acc).length ≤ acc.length + ids.length := by
  induction ids generalizing acc with
  | nil => simp
  | cons i rest ih =>
    rw [List.foldl_cons]
    have h1 := ih (setAdd acc i)
    have h2 : (setAdd acc i).length ≤ acc.length + 1 := by
      unfold setAdd
      split
      · exact Nat.le_succ _
      · simp
    simp only [List.length_cons]
    omega

theorem length_setOfArray (ids : List String) : (setOfArray ids).length ≤ ids.length := by
  have h := length_foldl_setAdd ids []
  simpa [setOfArray] using h

/-- After a modifier click on a rendered node the widget reports a
selection change: the clicked node is among the nodes held as selected
either before the click or after it, not both. -/
theorem clickInWidget_modifier (a : App) (event : ClickEvent) (node : Node)
    (hmod : event.ctrlKey = true ∨ event.metaKey = true)
    (hrendered : node ∈ filteredNodes a.viewer.nodes a.page.filterOptions) :
    a.clickInWidget event node =
      (a.nodeClick event node).selectionChange
        (some (widgetSelection (a.nodeClick event node).viewer a.page.filterOptions)) := by
  have hframe := nodeClick_frame a event node
  have hne : widgetSelection (a.nodeClick event node).viewer a.page.filterOptions ≠
      widgetSelection a.viewer a.page.filterOptions := by
    intro heq
    have h1 := mem_widgetSelection (a.nodeClick event node).viewer a.page.filterOptions node
    have h2 := mem_widgetSelection a.viewer a.page.filterOptions node
    rw [heq] at h1
    rw [hframe.1] at h1
    have htoggle : node.id ∈ (a.nodeClick event node).viewer.selectedNodes ↔
        node.id ∉ a.viewer.selectedNodes := by
      rw [nodeClick_eq, mem_toggle a.viewer event node hmod]
      simp
    have h3 : node.id ∈ (a.nodeClick event node).viewer.selectedNodes ↔
        node.id ∈ a.viewer.selectedNodes := by
      constructor
      · intro h
        exact (h2.mp (h1.mpr ⟨hrendered, h⟩)).2
      · intro h
        exact (h1.mp (h2.mpr ⟨hrendered, h⟩)).2
    by_cases hin : node.id ∈ a.viewer.selectedNodes
    · exact (htoggle.mp (h3.mpr hin)) hin
    · exact hin (h3.mp (htoggle.mpr hin))
  unfold App.clickInWidget
  simp only [hframe.2]
  rw [if_neg hne]

/-- C16: with the selection set holding exactly the id of a rendered node, a
click on that node with ctrl or meta held leaves the selection set empty and
the page without primary selection: the click handlers empty the set, the
widget reports that it holds no selected node, and `handleNodeSelect` clears
`selectedNode`. -/
theorem modifier_click_emptying_set_clears_primary (a : App) (event : ClickEvent)
    (node : Node) (hmod : event.ctrlKey = true ∨ event.metaKey = true)
    (hrendered : node ∈ filteredNodes a.viewer.nodes a.page.filterOptions)
    (hsel : ∀ m : String, m ∈ a.viewer.selectedNodes ↔ m = node.id) :
    (a.clickInWidget event node).viewer.selectedNodes = [] ∧
    (a.clickInWidget event node).page.selectedNode = none := by
  have hempty : (a.nodeClick event node).viewer.selectedNodes = [] := by
    rw [List.eq_nil_iff_forall_not_mem]
    intro m hm
    rw [nodeClick_eq, mem_toggle a.viewer event node hmod] at hm
    rcases hm with ⟨-, hnot⟩ | ⟨hne, hin⟩
    · exact hnot ((hsel node.id).mpr rfl)
    · exact hne ((hsel m).mp hin)
  have hreported :
      widgetSelection (a.nodeClick event node).viewer a.page.filterOptions = [] := by
    rw [widgetSelection_eq, hempty]
    simp
  rw [clickInWidget_modifier a event node hmod hrendered, hreported, selectionChange_eq]
  exact ⟨rfl, rfl⟩

/-- With `A` alone selected in the model A, B, C, a ctrl-click on `A` leaves
no node selected and no primary selection. -/
theorem modifier_click_emptying_set_clears_primary_witness :
    ((Examples.abcApp.clickInWidget .plain Examples.nodeA).clickInWidget .ctrl
        Examples.nodeA).viewer.selectedNodes = [] ∧
    ((Examples.abcApp.clickInWidget .plain Examples.nodeA).clickInWidget .ctrl
        Examples.nodeA).page.selectedNode = none :=
  modifier_click_emptying_set_clears_primary
    (Examples.abcApp.clickInWidget .plain Examples.nodeA) .ctrl Examples.nodeA
    (Or.inl rfl) (by decide)
    (by
      have h : (Examples.abcApp.clickInWidget .plain Examples.nodeA).viewer.selectedNodes
          = ["A"] := by decide
      intro m
      rw [h]
      exact List.mem_singleton)

/-- C17: after a click with ctrl or meta held on a rendered node, when the
selection set holds more than one id the page has no primary selection, and
when the page has a primary selection the set holds exactly one id; after a
plain click on A and a ctrl-click on B the set holds A and B and there is no
primary selection, and a further ctrl-click on A leaves B selected and
primary. -/
theorem modifier_click_multi_selection_has_no_primary (a : App) (event : ClickEvent)
    (node : Node) (hmod : event.ctrlKey = true ∨ event.metaKey = true)
    (hrendered : node ∈ filteredNodes a.viewer.nodes a.page.filterOptions) :
    (1 < (a.clickInWidget event node).viewer.selectedNodes.length →
      (a.clickInWidget event node).page.selectedNode = none) ∧
    ((a.clickInWidget event node).page.selectedNode ≠ none →
      (a.clickInWidget event node).viewer.selectedNodes.length = 1) ∧
    ((Examples.abcApp.clickInWidget .plain Examples.nodeA).clickInWidget .ctrl
        Examples.nodeB).viewer.selectedNodes = ["A", "B"] ∧
    ((Examples.abcApp.clickInWidget .plain Examples.nodeA).clickInWidget .ctrl
        Examples.nodeB).page.selectedNode = none ∧
    (((Examples.abcApp.clickInWidget .plain Examples.nodeA).clickInWidget .ctrl
        Examples.nodeB).clickInWidget .ctrl Examples.nodeA).viewer.selectedNodes = ["B"] ∧
    (((Examples.abcApp.clickInWidget .plain Examples.nodeA).clickInWidget .ctrl
        Examples.nodeB).clickInWidget .ctrl Examples.nodeA).page.selectedNode =
      some Examples.nodeB := by
  refine ⟨?_, ?_, by decide, by decide, by decide, by decide⟩
  · rw [clickInWidget_modifier a event node hmod hrendered, selectionChange_eq]
    simp only [handleSelectionChange]
    generalize (widgetSelection (a.nodeClick event node).viewer a.page.filterOptions).map
      (fun node => node.id) = ids
    intro hlen
    match ids, hlen with
    | [], h => simp [setOfArray] at h
    | [x], h => simp [setOfArray_singleton] at h
    | x :: y :: rest, _ => rfl
  · rw [clickInWidget_modifier a event node hmod hrendered, selectionChange_eq]
    simp only [handleSelectionChange]
    generalize (widgetSelection (a.nodeClick event node).viewer a.page.filterOptions).map
      (fun node => node.id) = ids
    intro hprim
    match ids, hprim with
    | [], h => exact absurd rfl h
    | [x], _ => simp [setOfArray_singleton]
    | x :: y :: rest, h => exact absurd rfl h

/-- In the model A, B, C with `A` selected, a ctrl-click on `B` leaves a
selection set of more than one id, and no primary selection. -/
theorem modifier_click_multi_selection_has_no_primary_witness :
    ((Examples.abcApp.clickInWidget .plain Examples.nodeA).clickInWidget .ctrl
        Examples.nodeB).page.selectedNode = none :=
  (modifier_click_multi_selection_has_no_primary
    (Examples.abcApp.clickInWidget .plain Examples.nodeA) .ctrl Examples.nodeB
    (Or.inl rfl) (by decide)).1 (by decide)

/-! ## C19: node highlight -/

/-- C19: `styledNodes` has one element for each visible node, in order; its
opacity is 1 when the selection is empty or the node's id is selected and 0.3
otherwise, its transform is `scale(1.1)` when the id is selected and
`scale(1)` otherwise, and its `selected` flag tells whether the id is
selected. -/
theorem styled_node_opacity_and_scale (nodes : List Node) (fo : FilterOptions)
    (sel : List String) :
    (styledNodes (filteredNodes nodes fo) sel).map (fun sn => sn.node) =
      filteredNodes nodes fo ∧
    ∀ sn ∈ styledNodes (filteredNodes nodes fo) sel,
      sn.style.opacity = (if sel = [] ∨ sn.node.id ∈ sel then 1 else 0.3) ∧
      sn.style.transform = (if sn.node.id ∈ sel then "scale(1.1)" else "scale(1)") ∧
      (sn.selected = true ↔ sn.node.id ∈ sel) := by
  constructor
  · simp [styledNodes, List.map_map, Function.comp_def]
  · intro sn hsn
    simp only [styledNodes, List.mem_map] at hsn
    obtain ⟨n, -, rfl⟩ := hsn
    simp [List.length_eq_zero]

/-- Under the selection of `B` alone, the styled node `A` of the model
A, B, C is dimmed to 0.3, at normal scale and not selected. -/
theorem styled_node_opacity_and_scale_witness :
    (⟨Examples.nodeA, false, true, ⟨0.3, "scale(1)", "all 0.2s ease-in-out"⟩⟩ :
        StyledNode).style.opacity =
      (if (["B"] : List String) = [] ∨ "A" ∈ ["B"] then 1 else 0.3) :=
  ((styled_node_opacity_and_scale Examples.abcNodes {} ["B"]).2
    ⟨Examples.nodeA, false, true, ⟨0.3, "scale(1)", "all 0.2s ease-in-out"⟩⟩
    (by
      have hvis : filteredNodes Examples.abcNodes {} = Examples.abcNodes := by decide
      rw [hvis]
      simp [styledNodes, Examples.abcNodes, Examples.nodeA, Examples.mkNode])).1

/-! ## C20: edge opacity -/

/-- C20 fails as stated: under the empty selection the styled edge A->B has
opacity 1, although the selection is not non-empty. -/
theorem edge_full_opacity_under_empty_selection :
    ¬ (∀ se ∈ styledEdges (filteredEdges Examples.abcEdges
          (filteredNodes Examples.abcNodes {})) [],
        (se.style.opacity = 1 ↔
          (([] : List String) ≠ [] ∧
            (se.edge.source ∈ ([] : List String) ∨ se.edge.target ∈ ([] : List String))))) := by
  intro h
  have hmem : (⟨Examples.mkEdge "A" "B", ⟨1, 2⟩⟩ : StyledEdge) ∈
      styledEdges (filteredEdges Examples.abcEdges (filteredNodes Examples.abcNodes {})) [] := by
    have hvis : filteredEdges Examples.abcEdges (filteredNodes Examples.abcNodes {}) =
        Examples.abcEdges := by decide
    rw [hvis]
    simp [styledEdges, Examples.abcEdges, strokeWidthOf, Examples.mkEdge]
  have h1 := (h _ hmem).mp rfl
  exact h1.1 rfl

/-- C20 (amended): `styledEdges` has one element for each visible edge, in
order; its opacity is 1 exactly when the selection is empty or the source or
the target of the edge is selected, and 0.2 in every other case. -/
theorem styled_edge_opacity (nodes : List Node) (edges : List Edge) (fo : FilterOptions)
    (sel : List String) :
    (styledEdges (filteredEdges edges (filteredNodes nodes fo)) sel).map (fun se => se.edge) =
      filteredEdges edges (filteredNodes nodes fo) ∧
    ∀ se ∈ styledEdges (filteredEdges edges (filteredNodes nodes fo)) sel,
      (se.style.opacity = 1 ↔
        (sel = [] ∨ se.edge.source ∈ sel ∨ se.edge.target ∈ sel)) ∧
      (se.style.opacity =
        if sel = [] ∨ se.edge.source ∈ sel ∨ se.edge.target ∈ sel then 1 else 0.2) := by
  constructor
  · simp [styledEdges, List.map_map, Function.comp_def]
  · intro se hse
    simp only [styledEdges, List.mem_map] at hse
    obtain ⟨e, -, rfl⟩ := hse
    by_cases hc : sel = [] ∨ e.source ∈ sel ∨ e.target ∈ sel
    · have : (decide (sel.length = 0) || (sel.contains e.source || sel.contains e.target))
          = true := by
        rcases hc with h | h | h <;> simp [h]
      simp [this, hc]
    · have : (decide (sel.length = 0) || (sel.contains e.source || sel.contains e.target))
          = false := by
        simp only [not_or] at hc
        simp [hc.1, hc.2.1, hc.2.2, List.length_eq_zero]
      simp only [this, hc]
      norm_num

/-- Under the selection of `A` alone, the edge A->B of the model A, B, C has
opacity 1: its source is selected. -/
theorem styled_edge_opacity_witness :
    (⟨Examples.mkEdge "A" "B", ⟨1, 3⟩⟩ : StyledEdge).style.opacity = 1 ↔
      ((["A"] : List String) = [] ∨ "A" ∈ ["A"] ∨ "B" ∈ ["A"]) :=
  ((styled_edge_opacity Examples.abcNodes Examples.abcEdges {} ["A"]).2
    ⟨Examples.mkEdge "A" "B", ⟨1, 3⟩⟩
    (by
      have hvis : filteredEdges Examples.abcEdges (filteredNodes Examples.abcNodes {}) =
          Examples.abcEdges := by decide
      rw [hvis]
      simp [styledEdges, Examples.abcEdges, strokeWidthOf, Examples.mkEdge])).1

/-! ## C21: edge stroke width -/

/-- C21 fails as stated: under the empty selection the visible edge A->B
whose own stroke width is 3 is styled with width 3, and the visible edge
B->C whose own stroke width is 0 is styled with width 2, not with its own. -/
theorem stroke_width_three_without_selection :
    (styledEdges (filteredEdges [Examples.wideEdge, Examples.hairlineEdge]
        (filteredNodes Examples.abcNodes {})) []).map
        (fun se => (se.edge.id, se.edge.style.bind EdgeStyle.strokeWidth,
          se.style.strokeWidth)) =
      [("A->B", some 3, 3), ("B->C", some 0, 2)] := by
  decide

/-- C21 (amended): a styled edge has stroke width 3 when the selection is
non-empty and its source or target is selected, and otherwise its normal
width, which is its own `style.strokeWidth` when that is present and not 0,
and 2 else; so when the normal width is not 3, the width is 3 exactly when
an endpoint is selected. -/
theorem styled_edge_stroke_width (nodes : List Node) (edges : List Edge)
    (fo : FilterOptions) (sel : List String) :
    ∀ se ∈ styledEdges (filteredEdges edges (filteredNodes nodes fo)) sel,
      (se.style.strokeWidth =
        if sel ≠ [] ∧ (se.edge.source ∈ sel ∨ se.edge.target ∈ sel) then 3
        else ((se.edge.style.bind EdgeStyle.strokeWidth).filter (fun w => w != 0)).getD 2) ∧
      (((se.edge.style.bind EdgeStyle.strokeWidth).filter (fun w => w != 0)).getD 2 ≠ 3 →
        (se.style.strokeWidth = 3 ↔
          sel ≠ [] ∧ (se.edge.source ∈ sel ∨ se.edge.target ∈ sel))) := by
  intro se hse
  simp only [styledEdges, List.mem_map] at hse
  obtain ⟨e, -, rfl⟩ := hse
  have hnormal : strokeWidthOf e =
      ((e.style.bind EdgeStyle.strokeWidth).filter (fun w => w != 0)).getD 2 := by
    unfold strokeWidthOf
    cases hs : e.style with
    | none => rfl
    | some st =>
      cases hw : st.strokeWidth with
      | none => simp [hw]
      | some w =>
        by_cases h0 : w = 0 <;> simp [hw, h0, Option.filter]
  have hP : (sel ≠ [] ∧ (e.source ∈ sel ∨ e.target ∈ sel)) ↔
      (sel.contains e.source || sel.contains e.target) = true := by
    constructor
    · rintro ⟨-, h | h⟩ <;> simp [h]
    · intro h
      have h' : e.source ∈ sel ∨ e.target ∈ sel := by simpa using h
      refine ⟨?_, h'⟩
      rintro rfl
      simp at h'
  have hw : (if (sel.contains e.source || sel.contains e.target) = true then 3
      else strokeWidthOf e) =
      if sel ≠ [] ∧ (e.source ∈ sel ∨ e.target ∈ sel) then 3
      else ((e.style.bind EdgeStyle.strokeWidth).filter (fun w => w != 0)).getD 2 := by
    by_cases hc : (sel.contains e.source || sel.contains e.target) = true
    · rw [if_pos hc, if_pos (hP.mpr hc)]
    · rw [if_neg hc, if_neg (fun h => hc (hP.mp h)), hnormal]
  refine ⟨hw, ?_⟩
  intro hne
  show (if (sel.contains e.source || sel.contains e.target) = true then 3
      else strokeWidthOf e) = 3 ↔ _
  rw [hw]
  by_cases hc : sel ≠ [] ∧ (e.source ∈ sel ∨ e.target ∈ sel)
  · simp [hc]
  · rw [if_neg hc]
    exact ⟨fun h => absurd h hne, fun h => absurd h hc⟩

/-- Under the selection of `A` alone the edge A->B of the model A, B, C is
drawn with width 3. -/
theorem styled_edge_stroke_width_witness :
    (⟨Examples.mkEdge "A" "B", ⟨1, 3⟩⟩ : StyledEdge).style.strokeWidth =
      (if (["A"] : List String) ≠ [] ∧ ("A" ∈ ["A"] ∨ "B" ∈ ["A"]) then 3
       else (((Examples.mkEdge "A" "B").style.bind EdgeStyle.strokeWidth).filter
        (fun w => w != 0)).getD 2) :=
  ((styled_edge_stroke_width Examples.abcNodes Examples.abcEdges {} ["A"])
    ⟨Examples.mkEdge "A" "B", ⟨1, 3⟩⟩
    (by
      have hvis : filteredEdges Examples.abcEdges (filteredNodes Examples.abcNodes {}) =
          Examples.abcEdges := by decide
      rw [hvis]
      simp [styledEdges, Examples.abcEdges, strokeWidthOf, Examples.mkEdge])).1

/-! ## C22: the key after a replacement -/

/-- C22 (the code at the failing input): at start the viewer shows the
sample snapshot and is initialised, and `applyDagreToSample` issues its
layout call; the response moves the eight nodes, the new snapshot is
installed, and the key is the one of before.  In general, a response that
`applyDagreToSample` installs keeps the key whenever the viewer is
initialised and the node count is the same.  A layout change through
`handleLayoutChange`, which flips the loading flag at the request and at
the response, raises the key by 2 on a response of the same size, and the
fallback handler of the viewer raises it by 1 once its timer fires. -/
theorem same_size_replacement_keeps_key :
    Examples.sampleApp.viewer.isInitialized = true ∧
    MainPage.applyDagreToSampleRequest true Examples.sampleApp.page.graphData =
      some (.generateLayout (MainPage.dependencyGraph MainPage.sampleGraphData) "dagre") ∧
    (Examples.sampleApp.sampleLayoutResponse (.resolved Examples.sampleRelayout)).Shows
      (FlowComponent.forceRepositionNodes MainPage.sampleGraphData.nodes)
      MainPage.sampleGraphData.edges ∧
    (Examples.sampleApp.sampleLayoutResponse (.resolved Examples.sampleRelayout)).viewer.nodes
      ≠ Examples.sampleApp.viewer.nodes ∧
    (Examples.sampleApp.sampleLayoutResponse
      (.resolved Examples.sampleRelayout)).viewer.reactFlowKey =
      Examples.sampleApp.viewer.reactFlowKey ∧
    (∀ (a : App) (r : LayoutResult) (nodes : List Node),
      r.success = true → r.nodes = some nodes → nodes ≠ [] →
      nodes.length = a.viewer.nodes.length → a.viewer.isInitialized = true →
      (a.sampleLayoutResponse (.resolved r)).viewer.nodes = nodes ∧
      (a.sampleLayoutResponse (.resolved r)).viewer.reactFlowKey = a.viewer.reactFlowKey) ∧
    ((Examples.abcApp.layoutRequest true "force").layoutResponse
      (.resolved Examples.movedResult)).viewer.reactFlowKey =
      Examples.abcApp.viewer.reactFlowKey + 2 ∧
    (remountTimer (GraphViewer.handleLayoutChangeResolve Examples.abcApp.viewer
      (.resolved Examples.movedResult))).reactFlowKey =
      Examples.abcApp.viewer.reactFlowKey + 1 := by
  refine ⟨by decide, by decide, by decide, by decide, by decide, ?_, by decide, by decide⟩
  intro a r nodes hs hn hne hlen hinit
  have hpos : 0 < nodes.length := List.length_pos.mpr hne
  have hpage : MainPage.applyDagreToSampleResolve a.page (.resolved r) =
      MainPage.setGraphData a.page { nodes := nodes, edges := r.edges.getD [] } := by
    simp [MainPage.applyDagreToSampleResolve, hs, hn, hpos]
  unfold App.sampleLayoutResponse
  rw [hpage]
  have hcommit : (a.commit
      (MainPage.setGraphData a.page { nodes := nodes, edges := r.edges.getD [] })).viewer =
      receiveProps a.viewer nodes (r.edges.getD []) := by
    simp [App.commit, MainPage.setGraphData]
  rw [hcommit]
  refine ⟨(receiveProps_snapshot _ _ _).1, ?_⟩
  have hpos2 : 0 < a.viewer.nodes.length := hlen ▸ hpos
  simp [receiveProps, autoFitEffect, initialEdgesEffect, initialNodesEffect, hpos, hpos2,
    hinit, hlen]

/-! ## C23: the key never decreases -/

theorem autoFitEffect_key (prev cur : ViewerState) :
    cur.reactFlowKey ≤ (autoFitEffect prev cur).reactFlowKey ∧
      (autoFitEffect prev cur).reactFlowKey ≤ cur.reactFlowKey + 1 := by
  unfold autoFitEffect
  split
  · split
    · exact ⟨Nat.le_succ _, Nat.le_refl _⟩
    · exact ⟨Nat.le_refl _, Nat.le_succ _⟩
  · exact ⟨Nat.le_refl _, Nat.le_succ _⟩

theorem receiveProps_key (v : ViewerState) (nodes : List Node) (edges : List Edge) :
    v.reactFlowKey ≤ (receiveProps v nodes edges).reactFlowKey ∧
      (receiveProps v nodes edges).reactFlowKey ≤ v.reactFlowKey + 1 := by
  have h := autoFitEffect_key v (initialEdgesEffect (initialNodesEffect v nodes) edges)
  have hk : (initialEdgesEffect (initialNodesEffect v nodes) edges).reactFlowKey
      = v.reactFlowKey := by
    unfold initialEdgesEffect initialNodesEffect
    split <;> rfl
  rw [hk] at h
  exact h

theorem widgetRemounted_key (v : ViewerState) :
    v.reactFlowKey ≤ (widgetRemounted v).reactFlowKey ∧
      (widgetRemounted v).reactFlowKey ≤ v.reactFlowKey + 1 :=
  autoFitEffect_key v { v with reactFlowInstance := v.reactFlowInstance + 1 }

theorem step_key (v : ViewerState) (e : ViewerEvent) :
    v.reactFlowKey ≤ (GraphViewer.step v e).reactFlowKey ∧
      (GraphViewer.step v e).reactFlowKey ≤ v.reactFlowKey + 1 := by
  cases e with
  | props ns es => exact receiveProps_key v ns es
  | layoutResponse o =>
    simp only [GraphViewer.step, GraphViewer.handleLayoutChangeResolve]
    split
    · exact ⟨Nat.le_refl _, Nat.le_succ _⟩
    · split
      · split
        · next nodes _ =>
          exact autoFitEffect_key v
            { v with nodes := nodes, edges := _, pendingRemounts := v.pendingRemounts + 1 }
        · exact ⟨Nat.le_refl _, Nat.le_succ _⟩
      · exact ⟨Nat.le_refl _, Nat.le_succ _⟩
  | remountTimer =>
    simp only [GraphViewer.step, GraphViewer.remountTimer]
    split
    · exact ⟨Nat.le_refl _, Nat.le_succ _⟩
    · exact ⟨Nat.le_succ _, Nat.le_refl _⟩
  | click event node =>
    simp only [GraphViewer.step, handleNodeClick]
    split <;> exact ⟨Nat.le_refl _, Nat.le_succ _⟩
  | selectionChange ns => exact ⟨Nat.le_refl _, Nat.le_succ _⟩
  | dragStop nodeId p => exact ⟨Nat.le_refl _, Nat.le_succ _⟩
  | filterChange fo => exact ⟨Nat.le_refl _, Nat.le_succ _⟩
  | nodesChange ns => exact autoFitEffect_key v { v with nodes := ns }
  | instanceChange => exact widgetRemounted_key v
  | edgesChange es => exact ⟨Nat.le_refl _, Nat.le_succ _⟩

theorem run_key (v : ViewerState) (events : List ViewerEvent) :
    v.reactFlowKey ≤ (GraphViewer.run v events).reactFlowKey := by
  unfold GraphViewer.run
  induction events generalizing v with
  | nil => exact Nat.le_refl _
  | cons e rest ih =>
    rw [List.foldl_cons]
    exact Nat.le_trans (step_key v e).1 (ih _)

theorem commit_key (a : App) (page : MainState) :
    a.viewer.reactFlowKey ≤ (a.commit page).viewer.reactFlowKey ∧
      (a.commit page).viewer.reactFlowKey ≤ a.viewer.reactFlowKey + 2 := by
  unfold App.commit
  simp only
  have h1 := widgetRemounted_key a.viewer
  split
  · split
    · exact ⟨Nat.le_refl _, Nat.le_add_right _ _⟩
    · omega
  · split
    · have h2 := receiveProps_key a.viewer page.graphData.nodes page.graphData.edges
      omega
    · have h2 := receiveProps_key (widgetRemounted a.viewer) page.graphData.nodes
        page.graphData.edges
      omega

/-- C23: the key is 0 at the first render; every step of the viewer
(replacement of the props, layout response, timer of the fallback handler,
click, selection change, drag patch, filter change, node or edge list
installed by the widget, new object from `useReactFlow`) leaves it as it was
or adds 1; so over any run of events, and over every step of the page and
the viewer together, it never decreases. -/
theorem render_epoch_never_decreases :
    (∀ (ns : List Node) (es : List Edge), (GraphViewer.firstRender ns es).reactFlowKey = 0) ∧
    (∀ (v : ViewerState) (e : ViewerEvent),
      v.reactFlowKey ≤ (GraphViewer.step v e).reactFlowKey ∧
      (GraphViewer.step v e).reactFlowKey ≤ v.reactFlowKey + 1) ∧
    (∀ (v : ViewerState) (events : List ViewerEvent),
      v.reactFlowKey ≤ (GraphViewer.run v events).reactFlowKey) ∧
    (∀ (a : App) (o : Outcome LayoutResult),
      a.viewer.reactFlowKey ≤ (a.layoutResponse o).viewer.reactFlowKey ∧
      a.viewer.reactFlowKey ≤ (a.analysisLayoutResponse o).viewer.reactFlowKey) ∧
    (∀ (a : App) (event : ClickEvent) (node : Node),
      (a.nodeClick event node).viewer.reactFlowKey = a.viewer.reactFlowKey) ∧
    (∀ (a : App) (elementsNodes : Option (List Node)),
      (a.selectionChange elementsNodes).viewer.reactFlowKey = a.viewer.reactFlowKey) := by
  refine ⟨fun _ _ => rfl, step_key, run_key, ?_, ?_, ?_⟩
  · intro a o
    exact ⟨(commit_key a _).1, (commit_key a _).1⟩
  · intro a event node
    rw [nodeClick_eq]
    simp only [handleNodeClick]
    split <;> rfl
  · intro a elementsNodes
    rw [selectionChange_eq]
    rfl

/-! ## C24: serialisation for the engine -/

/-- C24 fails as stated: the fallback handler of the viewer serialises a
node with an empty label, no file path and no metadata under its id as name,
the empty string as file path and the empty object as metadata. -/
theorem fallback_serialisation_fills_defaults :
    (GraphViewer.serializeNode Examples.bareNode).name ≠ Examples.bareNode.data.label ∧
    (GraphViewer.serializeNode Examples.bareNode).name = Examples.bareNode.id ∧
    (GraphViewer.serializeNode Examples.bareNode).filePath ≠
      Examples.bareNode.data.filePath ∧
    (GraphViewer.serializeNode Examples.bareNode).metadata ≠
      Examples.bareNode.data.metadata := by
  decide

theorem getElem?_map_some {α β : Type} (f : α → β) (l : List α) (i : Nat) (a : α)
    (h : l[i]? = some a) : (l.map f)[i]? = some (f a) := by
  rw [List.getElem?_map, h]
  rfl

theorem edgeTypeOf_eq (e : Edge) :
    edgeTypeOf e =
      ((e.data.bind EdgeData.edgeType).filter (fun k => k != "")).getD "import" := by
  unfold edgeTypeOf
  cases hd : e.data with
  | none => rfl
  | some d =>
    cases hk : d.edgeType with
    | none => simp [orDefault, hk]
    | some k =>
      by_cases h0 : k = "" <;> simp [orDefault, hk, h0, Option.filter]

/-- C24 (amended): the engine input built by the page (in
`handleLayoutChange` and in `applyDagreToSample`) and the one built by the
fallback handler of the viewer have as many nodes and edges as the snapshot,
in the same order and with the same ids; every serialised edge carries the
source and the target of its edge and as type the kind of the edge when
that is present and not empty, `import` else.  In the input built by the
page every serialised node carries the label as name and the file path,
kind, exports, imports, components, functions and metadata of its node as
they are.  In the input built by the fallback handler the exports, imports,
components and functions are carried as they are, the name is the label, or
the id when the label is empty, the file path is the empty string when
missing, the type is `module` when the kind is empty, and the metadata is
the empty object when missing. -/
theorem serialisation_preserves_graph :
    (∀ g : GraphData,
      (MainPage.dependencyGraph g).nodes = some (g.nodes.map MainPage.serializeNode) ∧
      (MainPage.dependencyGraph g).edges = some (g.edges.map MainPage.serializeEdge) ∧
      (g.nodes.map MainPage.serializeNode).length = g.nodes.length ∧
      (g.edges.map MainPage.serializeEdge).length = g.edges.length ∧
      (g.nodes.map MainPage.serializeNode).map (fun n => n.id) = g.nodes.map (fun n => n.id) ∧
      (g.edges.map MainPage.serializeEdge).map (fun e => e.id) =
        g.edges.map (fun e => e.id)) ∧
    (∀ (g : GraphData) (i : Nat) (n : Node), g.nodes[i]? = some n →
      ∃ sn, (g.nodes.map MainPage.serializeNode)[i]? = some sn ∧
        sn.id = n.id ∧ sn.name = n.data.label ∧ sn.filePath = n.data.filePath ∧
        sn.type = n.data.nodeType ∧ sn.exports = n.data.exports ∧
        sn.imports = n.data.imports ∧ sn.components = n.data.components ∧
        sn.functions = n.data.functions ∧ sn.metadata = n.data.metadata) ∧
    (∀ (g : GraphData) (i : Nat) (e : Edge), g.edges[i]? = some e →
      ∃ se, (g.edges.map MainPage.serializeEdge)[i]? = some se ∧
        se.id = e.id ∧ se.source = e.source ∧ se.target = e.target ∧
        se.type = ((e.data.bind EdgeData.edgeType).filter (fun k => k != "")).getD "import") ∧
    (∀ (s : MainState) (layoutType : String) (call : EngineCall),
      (MainPage.handleLayoutChangeRequest true s layoutType).2 = some call →
        call = .generateLayout (MainPage.dependencyGraph s.graphData) layoutType) ∧
    (∀ (g : GraphData) (call : EngineCall),
      MainPage.applyDagreToSampleRequest true g = some call →
        call = .generateLayout (MainPage.dependencyGraph g) "dagre") ∧
    (∀ (v : ViewerState) (layoutType : String) (call : EngineCall),
      GraphViewer.handleLayoutChangeRequest false true v layoutType = .issued call →
        call = .generateLayout
          { nodes := some (v.nodes.map GraphViewer.serializeNode),
            edges := some (v.edges.map GraphViewer.serializeEdge) } layoutType) ∧
    (∀ v : ViewerState,
      (v.nodes.map GraphViewer.serializeNode).length = v.nodes.length ∧
      (v.edges.map GraphViewer.serializeEdge).length = v.edges.length ∧
      (v.nodes.map GraphViewer.serializeNode).map (fun n => n.id) =
        v.nodes.map (fun n => n.id) ∧
      (v.edges.map GraphViewer.serializeEdge).map (fun e => e.id) =
        v.edges.map (fun e => e.id)) ∧
    (∀ (v : ViewerState) (i : Nat) (n : Node), v.nodes[i]? = some n →
      ∃ sn, (v.nodes.map GraphViewer.serializeNode)[i]? = some sn ∧
        sn.id = n.id ∧
        sn.name = (if n.data.label = "" then n.id else n.data.label) ∧
        sn.filePath = some (n.data.filePath.getD "") ∧
        sn.type = (if n.data.nodeType = "" then "module" else n.data.nodeType) ∧
        sn.exports = n.data.exports ∧ sn.imports = n.data.imports ∧
        sn.components = n.data.components ∧ sn.functions = n.data.functions ∧
        sn.metadata = some (n.data.metadata.getD {})) ∧
    (∀ (v : ViewerState) (i : Nat) (e : Edge), v.edges[i]? = some e →
      ∃ se, (v.edges.map GraphViewer.serializeEdge)[i]? = some se ∧
        se.id = e.id ∧ se.source = e.source ∧ se.target = e.target ∧
        se.type =
          ((e.data.bind EdgeData.edgeType).filter (fun k => k != "")).getD "import") := by
  refine ⟨?_, ?_, ?_, ?_, ?_, ?_, ?_, ?_, ?_⟩
  · intro g
    refine ⟨rfl, rfl, by simp, by simp, ?_, ?_⟩
    · rw [List.map_map]; rfl
    · rw [List.map_map]; rfl
  · intro g i n h
    exact ⟨MainPage.serializeNode n, getElem?_map_some _ _ _ _ h,
      rfl, rfl, rfl, rfl, rfl, rfl, rfl, rfl, rfl⟩
  · intro g i e h
    exact ⟨MainPage.serializeEdge e, getElem?_map_some _ _ _ _ h,
      rfl, rfl, rfl, edgeTypeOf_eq e⟩
  · intro s layoutType call h
    unfold MainPage.handleLayoutChangeRequest at h
    split at h
    · cases h
    · simp only [Option.some.injEq] at h
      exact h.symm
  · intro g call h
    unfold MainPage.applyDagreToSampleRequest at h
    split at h
    · cases h
    · split at h
      · cases h
      · simp only [Option.some.injEq] at h
        exact h.symm
  · intro v layoutType call h
    unfold GraphViewer.handleLayoutChangeRequest at h
    simp only [Bool.false_eq_true, if_false, if_true] at h
    split at h
    · cases h
    · simp only [LayoutRequest.issued.injEq] at h
      exact h.symm
  · intro v
    refine ⟨by simp, by simp, ?_, ?_⟩
    · rw [List.map_map]; rfl
    · rw [List.map_map]; rfl
  · intro v i n h
    exact ⟨GraphViewer.serializeNode n, getElem?_map_some _ _ _ _ h,
      rfl, rfl, rfl, rfl, rfl, rfl, rfl, rfl, rfl⟩
  · intro v i e h
    exact ⟨GraphViewer.serializeEdge e, getElem?_map_some _ _ _ _ h,
      rfl, rfl, rfl, edgeTypeOf_eq e⟩

/-- The first node of the sample snapshot is serialised by the page with its
label as name and its kind as type. -/
theorem serialisation_preserves_graph_witness :
    ∃ sn, (MainPage.sampleGraphData.nodes.map MainPage.serializeNode)[0]? = some sn ∧
      sn.id = "MainPage.jsx" ∧ sn.name = "MainPage" ∧
      sn.filePath = some "/src/pages/MainPage.jsx" ∧ sn.type = "component" ∧
      sn.exports = ["MainPage"] ∧ sn.imports = ["React", "GraphViewer", "DetailPanel"] ∧
      sn.components = ["MainPage"] ∧
      sn.functions = ["MainPage", "handleLayoutChange", "analyzeProject"] ∧
      sn.metadata = some { complexity := some 15 } :=
  serialisation_preserves_graph.2.1 MainPage.sampleGraphData 0 _ rfl

/-! ## C25: the sample snapshot -/

/-- C25: in `sampleGraphData`, the initial value of `graphData`, the node ids
are pairwise distinct, the edge ids are pairwise distinct, and the source
and the target of every edge are ids of nodes of the snapshot. -/
theorem sample_snapshot_well_formed :
    (App.start MainPage.sampleGraphData).page.graphData = MainPage.sampleGraphData ∧
    (MainPage.sampleGraphData.nodes.map (fun n => n.id)).Nodup ∧
    (MainPage.sampleGraphData.edges.map (fun e => e.id)).Nodup ∧
    (∀ e ∈ MainPage.sampleGraphData.edges,
      e.source ∈ MainPage.sampleGraphData.nodes.map (fun n => n.id) ∧
      e.target ∈ MainPage.sampleGraphData.nodes.map (fun n => n.id)) := by
  refine ⟨rfl, by decide, by decide, by decide⟩

/-! ## C26: the list handed over on a click -/

/-- C26: on every click, with or without modifier, the list that the viewer
hands to `onNodeClick` is the selection set of before the click, and the
page stores that list as its `selectedNodes`; after a plain click on A from
the empty selection the page holds the empty list while the set of the
viewer holds A. -/
theorem click_hands_over_previous_selection :
    (∀ (v : ViewerState) (event : ClickEvent) (node : Node),
      (handleNodeClick true v event node).2 = some (node, v.selectedNodes)) ∧
    (∀ (a : App) (event : ClickEvent) (node : Node),
      (a.nodeClick event node).page.selectedNodes =
        a.viewer.selectedNodes.map SelectionEntry.id) ∧
    (Examples.abcApp.nodeClick .plain Examples.nodeA).page.selectedNodes = [] ∧
    (Examples.abcApp.nodeClick .plain Examples.nodeA).viewer.selectedNodes = ["A"] ∧
    ((Examples.abcApp.nodeClick .plain Examples.nodeA).nodeClick .ctrl
      Examples.nodeB).page.selectedNodes = [SelectionEntry.id "A"] ∧
    ((Examples.abcApp.nodeClick .plain Examples.nodeA).nodeClick .ctrl
      Examples.nodeB).viewer.selectedNodes = ["A", "B"] := by
  refine ⟨fun _ _ _ => rfl, fun _ _ _ => rfl, by decide, by decide, by decide, by decide⟩

/-! ## C27: layout change without a project -/

/-- C27: when no project path is set, or the snapshot has no nodes, the
page's `handleLayoutChange` issues no call and returns the state it was
given (snapshot, layout kind and loading flag included), whether or not the
engine is there; the page and the viewer stay as they were.  The viewer,
given the page's handler, only passes the request on. -/
theorem layout_change_without_project_is_noop (a : App) (layoutType : String)
    (hguard : MainPage.noProjectPath a.page.projectPath = true ∨ a.page.graphData.nodes = []) :
    (∀ isElectronAvailable : Bool,
      MainPage.handleLayoutChangeRequest isElectronAvailable a.page layoutType =
        (a.page, none)) ∧
    (∀ api : Option ElectronAPI,
      MainPage.handleLayoutChange api a.page layoutType = a.page ∧
      a.commit (MainPage.handleLayoutChange api a.page layoutType) = a) ∧
    (∀ graphApi : Bool,
      GraphViewer.handleLayoutChangeRequest true graphApi a.viewer layoutType =
        .delegated layoutType) := by
  have hreq : ∀ isElectronAvailable : Bool,
      MainPage.handleLayoutChangeRequest isElectronAvailable a.page layoutType =
        (a.page, none) := by
    intro avail
    unfold MainPage.handleLayoutChangeRequest
    rcases hguard with h | h
    · simp [h]
    · simp [h]
  have hwhole : ∀ api : Option ElectronAPI,
      MainPage.handleLayoutChange api a.page layoutType = a.page := by
    intro api
    unfold MainPage.handleLayoutChange
    rw [hreq]
    cases api <;> rfl
  refine ⟨hreq, ?_, fun _ => rfl⟩
  intro api
  refine ⟨hwhole api, ?_⟩
  rw [hwhole api]
  exact commit_same_page a

/-- On the sample snapshot, before any project is opened, a layout change
with an engine that would move the nodes changes nothing. -/
theorem layout_change_without_project_is_noop_witness :
    MainPage.handleLayoutChange
        (some (Examples.constEngine (.rejected "") (.resolved Examples.movedResult)))
        Examples.sampleApp.page "force" = Examples.sampleApp.page ∧
    Examples.sampleApp.commit (MainPage.handleLayoutChange
        (some (Examples.constEngine (.rejected "") (.resolved Examples.movedResult)))
        Examples.sampleApp.page "force") = Examples.sampleApp :=
  (layout_change_without_project_is_noop Examples.sampleApp "force" (Or.inl rfl)).2.1
    (some (Examples.constEngine (.rejected "") (.resolved Examples.movedResult)))

/-! ## C28: selection across a replacement -/

theorem autoFitEffect_selectedNodes (prev cur : ViewerState) :
    (autoFitEffect prev cur).selectedNodes = cur.selectedNodes := by
  unfold autoFitEffect
  split
  · split <;> rfl
  · rfl

theorem receiveProps_selectedNodes (v : ViewerState) (nodes : List Node) (edges : List Edge) :
    (receiveProps v nodes edges).selectedNodes = v.selectedNodes := by
  unfold receiveProps
  rw [autoFitEffect_selectedNodes]
  unfold initialEdgesEffect initialNodesEffect
  split <;> rfl

theorem commit_selectedNodes (a : App) (page : MainState) :
    (a.commit page).viewer.selectedNodes = a.viewer.selectedNodes := by
  unfold App.commit
  simp only
  split
  · split
    · rfl
    · exact (widgetRemounted_frame a.viewer).2.2.1
  · split
    · exact receiveProps_selectedNodes _ _ _
    · rw [receiveProps_selectedNodes]
      exact (widgetRemounted_frame a.viewer).2.2.1

/-- C28: a replacement of the snapshot keeps the selection set of the
viewer, on the props and on every layout response; when that set is not
empty and holds no id of the new node list, every styled node has opacity
0.3 and is not selected, and every styled edge has opacity 0.2, under any
filter criteria. -/
theorem replacement_keeps_selection (v : ViewerState) (nodes : List Node)
    (edges : List Edge) (fo : FilterOptions) (hne : v.selectedNodes ≠ [])
    (hfresh : ∀ n ∈ nodes, n.id ∉ v.selectedNodes) :
    (receiveProps v nodes edges).selectedNodes = v.selectedNodes ∧
    (∀ (a : App) (o : Outcome LayoutResult),
      (a.layoutResponse o).viewer.selectedNodes = a.viewer.selectedNodes ∧
      (a.analysisLayoutResponse o).viewer.selectedNodes = a.viewer.selectedNodes) ∧
    (∀ sn ∈ styledNodes (filteredNodes (receiveProps v nodes edges).nodes fo)
        (receiveProps v nodes edges).selectedNodes,
      sn.style.opacity = 0.3 ∧ sn.selected = false) ∧
    (∀ se ∈ styledEdges
        (filteredEdges (receiveProps v nodes edges).edges
          (filteredNodes (receiveProps v nodes edges).nodes fo))
        (receiveProps v nodes edges).selectedNodes,
      se.style.opacity = 0.2) := by
  have hsel := receiveProps_selectedNodes v nodes edges
  have hnodes := (receiveProps_snapshot v nodes edges).1
  have hlen : ¬ v.selectedNodes.length = 0 := fun h => hne (List.length_eq_zero.mp h)
  refine ⟨hsel, fun a o => ⟨commit_selectedNodes a _, commit_selectedNodes a _⟩, ?_, ?_⟩
  · intro sn hsn
    rw [hsel, hnodes] at hsn
    simp only [styledNodes, List.mem_map] at hsn
    obtain ⟨n, hn, rfl⟩ := hsn
    have hmem : n ∈ nodes := ((mem_filteredNodes nodes fo n).mp hn).1
    have hnot : n.id ∉ v.selectedNodes := hfresh n hmem
    simp [hnot, hlen]
  · intro se hse
    rw [hsel, hnodes] at hse
    simp only [styledEdges, List.mem_map] at hse
    obtain ⟨e, he, rfl⟩ := hse
    obtain ⟨-, ⟨n1, hn1, hid1⟩, ⟨n2, hn2, hid2⟩⟩ := (mem_filteredEdges _ _ e).mp he
    have hs : e.source ∉ v.selectedNodes := by
      rw [← hid1]
      exact hfresh n1 ((mem_filteredNodes nodes fo n1).mp hn1).1
    have ht : e.target ∉ v.selectedNodes := by
      rw [← hid2]
      exact hfresh n2 ((mem_filteredNodes nodes fo n2).mp hn2).1
    simp [hs, ht, hlen]

/-- With `A` selected, the snapshot is replaced by the nodes X, Y and the
edge X->Y: the selection is still `A` and the edge X->Y has opacity 0.2. -/
theorem replacement_keeps_selection_witness :
    (receiveProps (Examples.abcApp.nodeClick .plain Examples.nodeA).viewer
        [Examples.mkNode "X" "module" 2, Examples.mkNode "Y" "module" 4]
        [Examples.mkEdge "X" "Y"]).selectedNodes = ["A"] ∧
    (⟨Examples.mkEdge "X" "Y", ⟨0.2, 2⟩⟩ : StyledEdge).style.opacity = 0.2 :=
  have h := replacement_keeps_selection
    (Examples.abcApp.nodeClick .plain Examples.nodeA).viewer
    [Examples.mkNode "X" "module" 2, Examples.mkNode "Y" "module" 4]
    [Examples.mkEdge "X" "Y"] {} (by decide) (by decide)
  ⟨h.1, h.2.2.2 ⟨Examples.mkEdge "X" "Y", ⟨0.2, 2⟩⟩
    (by
      rw [h.1, (receiveProps_snapshot _ _ _).1, (receiveProps_snapshot _ _ _).2]
      have hvis : filteredEdges [Examples.mkEdge "X" "Y"]
          (filteredNodes [Examples.mkNode "X" "module" 2, Examples.mkNode "Y" "module" 4] {})
          = [Examples.mkEdge "X" "Y"] := by decide
      rw [hvis]
      have hsel : (Examples.abcApp.nodeClick .plain Examples.nodeA).viewer.selectedNodes
          = ["A"] := by decide
      rw [hsel]
      simp [styledEdges, strokeWidthOf, Examples.mkEdge])⟩

/-! ## C29: grid repositioning of the analysis tool -/

theorem forceRepositionNodes_getElem? (nodes : List Node) (i : Nat) :
    (FlowComponent.forceRepositionNodes nodes)[i]? =
      nodes[i]?.map (fun node =>
        { node with
          position :=
            { x := ((i % 3) * 200 + 100 : Nat), y := ((i / 3) * 150 + 100 : Nat) } }) := by
  unfold FlowComponent.forceRepositionNodes
  rw [List.getElem?_map, List.getElem?_enum]
  cases nodes[i]? <;> rfl

/-- C29: `forceRepositionNodes` keeps the length of the node list and, in
order, the id, type, data and draggable flag of every node; the node at
index `i` gets the position `((i mod 3) * 200 + 100, (i / 3) * 150 + 100)`;
nodes at distinct indices get distinct positions. -/
theorem force_reposition_is_a_grid (nodes : List Node) :
    (FlowComponent.forceRepositionNodes nodes).length = nodes.length ∧
    (FlowComponent.forceRepositionNodes nodes).map (fun n => n.id) =
      nodes.map (fun n => n.id) ∧
    (FlowComponent.forceRepositionNodes nodes).map (fun n => n.data) =
      nodes.map (fun n => n.data) ∧
    (∀ (i : Nat) (n : Node), nodes[i]? = some n →
      ∃ moved, (FlowComponent.forceRepositionNodes nodes)[i]? = some moved ∧
        moved.position.x = ((i % 3) * 200 + 100 : Nat) ∧
        moved.position.y = ((i / 3) * 150 + 100 : Nat) ∧
        moved.id = n.id ∧ moved.type = n.type ∧ moved.data = n.data ∧
        moved.draggable = n.draggable) ∧
    (∀ (i j : Nat) (ni nj : Node),
      (FlowComponent.forceRepositionNodes nodes)[i]? = some ni →
      (FlowComponent.forceRepositionNodes nodes)[j]? = some nj →
      i ≠ j → ni.position ≠ nj.position) := by
  refine ⟨?_, ?_, ?_, ?_, ?_⟩
  · simp [FlowComponent.forceRepositionNodes, List.enum_length]
  · unfold FlowComponent.forceRepositionNodes
    rw [List.map_map]
    conv_rhs => rw [← List.enum_map_snd nodes, List.map_map]
    rfl
  · unfold FlowComponent.forceRepositionNodes
    rw [List.map_map]
    conv_rhs => rw [← List.enum_map_snd nodes, List.map_map]
    rfl
  · intro i n h
    refine ⟨{ n with position :=
        { x := ((i % 3) * 200 + 100 : Nat), y := ((i / 3) * 150 + 100 : Nat) } },
      ?_, rfl, rfl, rfl, rfl, rfl, rfl⟩
    rw [forceRepositionNodes_getElem?, h]
    rfl
  · intro i j ni nj hi hj hij heq
    rw [forceRepositionNodes_getElem?] at hi hj
    cases hni : nodes[i]? with
    | none => rw [hni] at hi; cases hi
    | some a =>
      cases hnj : nodes[j]? with
      | none => rw [hnj] at hj; cases hj
      | some b =>
        rw [hni] at hi
        rw [hnj] at hj
        simp only [Option.map_some', Option.some.injEq] at hi hj
        subst hi hj
        simp only [Position.mk.injEq] at heq
        omega

/-- The eight nodes of the sample snapshot are placed on a grid of three
columns, the first at (100, 100) and the fifth at (300, 250). -/
theorem force_reposition_is_a_grid_witness :
    (FlowComponent.forceRepositionNodes MainPage.sampleGraphData.nodes).map
        (fun n => (n.position.x, n.position.y)) =
      [(100, 100), (300, 100), (500, 100), (100, 250), (300, 250), (500, 250),
        (100, 400), (300, 400)] ∧
    (∃ moved, (FlowComponent.forceRepositionNodes MainPage.sampleGraphData.nodes)[4]? =
        some moved ∧ moved.position.x = (((4 % 3) * 200 + 100 : Nat) : Int) ∧
        moved.position.y = (((4 / 3) * 150 + 100 : Nat) : Int) ∧
        moved.id = "GraphService.js") :=
  ⟨by decide,
    have ⟨moved, h1, h2, h3, h4, _⟩ :=
      (force_reposition_is_a_grid MainPage.sampleGraphData.nodes).2.2.2.1 4 _ rfl
    ⟨moved, h1, h2, h3, h4⟩⟩

end CodeVisor
